import Mathlib

/-!
Verification of the RDP core PDU pipeline of libfreerdp-core/rdp.c
(NeutrinoRDP): packet framing, the security envelope, and PDU dispatch.

The byte-level state of the C code is embedded shallowly:

* a C `STREAM` becomes a structure with a byte list `data`, a cursor `pos`
  (the offset `p - data`) and a logical end `size`;
* machine integers become `Nat` (with explicit `% 256`, `% 65536` or
  `Int` truncation where the C arithmetic wraps or can go negative);
* external collaborators that rdp.c calls but whose code is not part of
  this translation unit (crypto primitives, the decompressor, transport
  writes, sibling handlers) are an explicit record `ExtOracle` of oracles;
* functions of mcs.c / per.c / tpkt.c / fastpath.c that rdp.c calls are
  modelled from the specification (their doc comments say so explicitly);
  every other definition is translated from rdp.c itself.
-/

/-! ## Byte-list codecs -/

def u8b (n : Nat) : List Nat := [n % 256]

def u16le (n : Nat) : List Nat := [n % 256, n / 256 % 256]

def u16be (n : Nat) : List Nat := [n / 256 % 256, n % 256]

def u32le (n : Nat) : List Nat :=
  [n % 256, n / 256 % 256, n / 65536 % 256, n / 16777216 % 256]

def byteAt : List Nat → Nat → Nat
  | [], _ => 0
  | b :: _, 0 => b
  | _ :: l, n + 1 => byteAt l n

def decodeU16le (bs : List Nat) : Nat := byteAt bs 0 + 256 * byteAt bs 1

def decodeU16be (bs : List Nat) : Nat := 256 * byteAt bs 0 + byteAt bs 1

def decodeU32le (bs : List Nat) : Nat :=
  byteAt bs 0 + 256 * byteAt bs 1 + 65536 * byteAt bs 2 + 16777216 * byteAt bs 3

/-- C unsigned 16-bit conversion of a signed intermediate value. -/
def u16_of_int (x : Int) : Nat := (x.emod 65536).toNat

@[simp] theorem byteAt_nil (n : Nat) : byteAt [] n = 0 := rfl

@[simp] theorem byteAt_cons_zero (b : Nat) (l : List Nat) : byteAt (b :: l) 0 = b := rfl

@[simp] theorem byteAt_cons_succ (b : Nat) (l : List Nat) (n : Nat) :
    byteAt (b :: l) (n + 1) = byteAt l n := rfl

theorem byteAt_append_lt {l1 : List Nat} (l2 : List Nat) {n : Nat} (h : n < l1.length) :
    byteAt (l1 ++ l2) n = byteAt l1 n := by
  induction l1 generalizing n with
  | nil => simp at h
  | cons b l ih =>
    cases n with
    | zero => rfl
    | succ n => simpa using ih (by simpa using h)

theorem byteAt_append_ge {l1 : List Nat} (l2 : List Nat) {n : Nat} (h : l1.length ≤ n) :
    byteAt (l1 ++ l2) n = byteAt l2 (n - l1.length) := by
  induction l1 generalizing n with
  | nil => simp
  | cons b l ih =>
    cases n with
    | zero => simp at h
    | succ n =>
      have := ih (show l.length ≤ n by simpa using h)
      simpa [Nat.succ_sub_succ] using this

theorem byteAt_drop (l : List Nat) (m n : Nat) : byteAt (l.drop m) n = byteAt l (m + n) := by
  induction l generalizing m with
  | nil => simp
  | cons b l ih =>
    cases m with
    | zero => simp
    | succ m => simpa [Nat.succ_add] using ih m

@[simp] theorem byteAt_replicate (m n : Nat) : byteAt (List.replicate m 0) n = 0 := by
  induction m generalizing n with
  | zero => rfl
  | succ m ih => cases n <;> simp [List.replicate_succ, ih]

theorem byteAt_lt_of_forall {l : List Nat} (h : ∀ b ∈ l, b < 256) (n : Nat) (hn : n < l.length) :
    byteAt l n < 256 := by
  induction l generalizing n with
  | nil => simp at hn
  | cons b t ih =>
    cases n with
    | zero => exact h b (by simp)
    | succ n =>
      exact ih (fun x hx => h x (by simp [hx])) n (by simpa using hn)

@[simp] theorem u8b_length (n : Nat) : (u8b n).length = 1 := rfl

@[simp] theorem u16le_length (n : Nat) : (u16le n).length = 2 := rfl

@[simp] theorem u16be_length (n : Nat) : (u16be n).length = 2 := rfl

@[simp] theorem u32le_length (n : Nat) : (u32le n).length = 4 := rfl

theorem decodeU16le_append (n : Nat) (r : List Nat) (h : n < 65536) :
    decodeU16le (u16le n ++ r) = n := by
  simp [decodeU16le, u16le]
  omega

theorem decodeU16be_append (n : Nat) (r : List Nat) (h : n < 65536) :
    decodeU16be (u16be n ++ r) = n := by
  simp [decodeU16be, u16be]
  omega

theorem decodeU32le_append (n : Nat) (r : List Nat) (h : n < 4294967296) :
    decodeU32le (u32le n ++ r) = n := by
  simp [decodeU32le, u32le]
  omega

/-! ## Bit-arithmetic helpers for the wire formats -/

theorem mul_pow_two_lor_eq_add (a b n : Nat) (h : b < 2 ^ n) :
    2 ^ n * a ||| b = 2 ^ n * a + b := by
  apply Nat.eq_of_testBit_eq
  intro j
  rw [Nat.testBit_lor, Nat.testBit_mul_pow_two, Nat.testBit_mul_pow_two_add a h j]
  by_cases hj : j < n
  · simp [hj, Nat.not_le.mpr hj]
  · have hb : b.testBit j = false := by
      refine Nat.testBit_lt_two_pow (Nat.lt_of_lt_of_le h ?_)
      exact Nat.pow_le_pow_right (by norm_num) (Nat.le_of_not_lt hj)
    simp [hj, Nat.le_of_not_lt hj, hb]

theorem lor_comm_add_pow (v k : Nat) (h : v < 2 ^ k) : v ||| 2 ^ k = 2 ^ k + v := by
  rw [Nat.lor_comm]
  have := mul_pow_two_lor_eq_add 1 v k h
  simpa using this

theorem and_mod_pow_two (x n : Nat) : x &&& (2 ^ n - 1) = x % 2 ^ n :=
  Nat.and_pow_two_sub_one_eq_mod x n

theorem lor_0x8000_eq (v : Nat) (h : v < 32768) : v ||| 32768 = 32768 + v := by
  have := lor_comm_add_pow v 15 (by norm_num [h] )
  norm_num at this
  exact this

theorem shiftLeft8_lor_eq (x y : Nat) (h : y < 256) : (x <<< 8) ||| y = 256 * x + y := by
  have h1 : x <<< 8 = x * 2 ^ 8 := Nat.shiftLeft_eq x 8
  have h2 := mul_pow_two_lor_eq_add x y 8 (by norm_num [h])
  rw [h1, Nat.mul_comm]
  norm_num at h2 ⊢
  omega

theorem lor_16_eq (t : Nat) (h : t < 16) : t ||| 16 = t + 16 := by
  have := lor_comm_add_pow t 4 (by norm_num [h])
  norm_num at this
  omega

theorem and_15_eq_mod (x : Nat) : x &&& 15 = x % 16 := by
  have := and_mod_pow_two x 4
  norm_num at this
  exact this

theorem and_127_eq_mod (x : Nat) : x &&& 127 = x % 128 := by
  have := and_mod_pow_two x 7
  norm_num at this
  exact this

theorem and_7_eq_mod (x : Nat) : x &&& 7 = x % 8 := by
  have := and_mod_pow_two x 3
  norm_num at this
  exact this

/-! ## The STREAM model

A C `STREAM` has `data` (base pointer), `p` (cursor) and `size`
(logical end).  `stream_get_left` is `size - (p - data)` as a signed
quantity, `stream_get_length` is `p - data`.  Typed reads are the
unchecked C macros: they read whatever bytes sit at the cursor (0 past
the end of the modelled buffer) and advance the cursor. -/

structure STREAM where
  data : List Nat
  pos : Nat
  size : Nat
deriving DecidableEq

def stream_get_left (s : STREAM) : Int := (s.size : Int) - (s.pos : Int)

def stream_get_length (s : STREAM) : Nat := s.pos

def stream_seek (s : STREAM) (n : Nat) : STREAM := { s with pos := s.pos + n }

def stream_set_pos (s : STREAM) (n : Nat) : STREAM := { s with pos := n }

/-- The bytes from the cursor to the end of the buffer. -/
def suffixAt (s : STREAM) : List Nat := s.data.drop s.pos

def stream_read_uint8 (s : STREAM) : Nat × STREAM :=
  (byteAt (suffixAt s) 0, stream_seek s 1)

def stream_read_uint16 (s : STREAM) : Nat × STREAM :=
  (decodeU16le (suffixAt s), stream_seek s 2)

def stream_read_uint16_be (s : STREAM) : Nat × STREAM :=
  (decodeU16be (suffixAt s), stream_seek s 2)

def stream_read_uint32 (s : STREAM) : Nat × STREAM :=
  (decodeU32le (suffixAt s), stream_seek s 4)

def stream_read_bytes (s : STREAM) (n : Nat) : List Nat × STREAM :=
  ((suffixAt s).take n, stream_seek s n)

/-- Overwrite the bytes of `xs` from offset `p` with `bs`, keeping the
rest (zero-filling should `p` lie past the end, which never happens on
the in-capacity executions the theorems describe). -/
def writeAt (xs : List Nat) (p : Nat) (bs : List Nat) : List Nat :=
  xs.take p ++ List.replicate (p - xs.length) 0 ++ bs ++ xs.drop (p + bs.length)

def stream_write_bytes (s : STREAM) (bs : List Nat) : STREAM :=
  { s with data := writeAt s.data s.pos bs, pos := s.pos + bs.length }

def stream_write_uint8 (s : STREAM) (v : Nat) : STREAM := stream_write_bytes s (u8b v)

def stream_write_uint16 (s : STREAM) (v : Nat) : STREAM := stream_write_bytes s (u16le v)

def stream_write_uint16_be (s : STREAM) (v : Nat) : STREAM := stream_write_bytes s (u16be v)

def stream_write_uint32 (s : STREAM) (v : Nat) : STREAM := stream_write_bytes s (u32le v)

/-- In-place modification at an absolute offset, cursor untouched
(memset, in-place encryption/decryption, signature emission). -/
def spliceAt (s : STREAM) (p : Nat) (bs : List Nat) : STREAM :=
  { s with data := writeAt s.data p bs }

/-- The `n` bytes of `xs` starting at offset `a`. -/
def regionOf (xs : List Nat) (a n : Nat) : List Nat := (xs.drop a).take n

/-- Truncate or zero-pad `bs` to exactly `n` bytes: the output of a C
primitive that fills a caller-supplied `n`-byte buffer. -/
def normN (n : Nat) (bs : List Nat) : List Nat := (bs ++ List.replicate n 0).take n

@[simp] theorem normN_length (n : Nat) (bs : List Nat) : (normN n bs).length = n := by
  rw [normN, List.length_take, List.length_append, List.length_replicate]
  omega

theorem normN_of_length (n : Nat) (bs : List Nat) (h : bs.length = n) : normN n bs = bs := by
  simp [normN, ← h, List.take_append_eq_append_take]


/-! ### writeAt lemmas -/

theorem byteAt_take {l : List Nat} {m n : Nat} (h : n < m) : byteAt (l.take m) n = byteAt l n := by
  induction l generalizing m n with
  | nil => simp
  | cons b t ih =>
    cases m with
    | zero => omega
    | succ m =>
      cases n with
      | zero => simp
      | succ n => simpa using ih (by omega)

theorem byteAt_ge_length {l : List Nat} {n : Nat} (h : l.length ≤ n) : byteAt l n = 0 := by
  induction l generalizing n with
  | nil => simp
  | cons b t ih =>
    cases n with
    | zero => simp at h
    | succ n => simpa using ih (by simpa using h)

theorem writeAt_eq (xs : List Nat) (p : Nat) (bs : List Nat) :
    writeAt xs p bs
      = (xs.take p ++ List.replicate (p - xs.length) 0) ++ (bs ++ xs.drop (p + bs.length)) := by
  simp [writeAt]

theorem pad_take_length (xs : List Nat) (p : Nat) :
    (xs.take p ++ List.replicate (p - xs.length) 0).length = p := by
  rw [List.length_append, List.length_take, List.length_replicate]
  omega

theorem writeAt_length (xs : List Nat) (p : Nat) (bs : List Nat) :
    (writeAt xs p bs).length = (p + bs.length) ⊔ xs.length := by
  rw [writeAt_eq, List.length_append, pad_take_length, List.length_append, List.length_drop]
  omega

theorem writeAt_zero (xs bs : List Nat) : writeAt xs 0 bs = bs ++ xs.drop bs.length := by
  simp [writeAt]

theorem drop_writeAt_self (xs : List Nat) (p : Nat) (bs : List Nat) :
    (writeAt xs p bs).drop p = bs ++ xs.drop (p + bs.length) := by
  rw [writeAt_eq, List.drop_left' (pad_take_length xs p)]

theorem regionOf_writeAt_self (xs : List Nat) (p : Nat) (bs : List Nat) :
    regionOf (writeAt xs p bs) p bs.length = bs := by
  rw [regionOf, drop_writeAt_self, List.take_left]

theorem regionOf_writeAt_take (xs : List Nat) (p : Nat) (bs : List Nat) (n : Nat)
    (h : n ≤ bs.length) :
    regionOf (writeAt xs p bs) p n = bs.take n := by
  rw [regionOf, drop_writeAt_self, List.take_append_of_le_length h]

theorem drop_writeAt_ge (xs : List Nat) (p : Nat) (bs : List Nat) (a : Nat)
    (h : p + bs.length ≤ a) :
    (writeAt xs p bs).drop a = xs.drop a := by
  rw [writeAt_eq, List.drop_append_eq_append_drop,
    List.drop_eq_nil_of_le (by rw [pad_take_length]; omega), pad_take_length,
    List.drop_append_eq_append_drop, List.drop_eq_nil_of_le (by omega), List.drop_drop]
  simp only [List.nil_append]
  congr 1
  omega

theorem regionOf_writeAt_right (xs : List Nat) (p : Nat) (bs : List Nat) (a n : Nat)
    (h : p + bs.length ≤ a) :
    regionOf (writeAt xs p bs) a n = regionOf xs a n := by
  rw [regionOf, regionOf, drop_writeAt_ge xs p bs a h]

theorem regionOf_writeAt_left (xs : List Nat) (p : Nat) (bs : List Nat) (a n : Nat)
    (hp : p ≤ xs.length) (h : a + n ≤ p) :
    regionOf (writeAt xs p bs) a n = regionOf xs a n := by
  have hrep : p - xs.length = 0 := by omega
  have htl : (xs.take p).length = p := by simp; omega
  rw [regionOf, regionOf, writeAt_eq, hrep]
  simp only [List.replicate_zero, List.append_nil]
  rw [List.drop_append_eq_append_drop, htl]
  have ha : a - p = 0 := by omega
  rw [List.take_append_eq_append_take]
  have hda : ((xs.take p).drop a).length = p - a := by simp; omega
  rw [hda]
  have hn : n - (p - a) = 0 := by omega
  rw [hn, List.take_zero, List.append_nil, List.drop_take]
  rw [List.take_take]
  congr 1
  omega

theorem byteAt_writeAt_lt (xs : List Nat) (p : Nat) (bs : List Nat) (i : Nat) (h : i < p) :
    byteAt (writeAt xs p bs) i = byteAt xs i := by
  rw [writeAt_eq, byteAt_append_lt _ (by rw [pad_take_length]; omega)]
  by_cases hx : i < xs.length
  · rw [byteAt_append_lt _ (by simp; omega), byteAt_take h]
  · rw [byteAt_append_ge _ (by simp; omega), byteAt_replicate, byteAt_ge_length (by omega)]

theorem byteAt_writeAt_in (xs : List Nat) (p : Nat) (bs : List Nat) (i : Nat)
    (hp : p ≤ i) (h : i < p + bs.length) :
    byteAt (writeAt xs p bs) i = byteAt bs (i - p) := by
  have h1 : byteAt ((writeAt xs p bs).drop p) (i - p) = byteAt (writeAt xs p bs) i := by
    rw [byteAt_drop]
    congr 1
    omega
  rw [← h1, drop_writeAt_self, byteAt_append_lt _ (by omega)]

theorem byteAt_writeAt_ge (xs : List Nat) (p : Nat) (bs : List Nat) (i : Nat)
    (h : p + bs.length ≤ i) :
    byteAt (writeAt xs p bs) i = byteAt xs i := by
  have h1 : byteAt ((writeAt xs p bs).drop i) 0 = byteAt (writeAt xs p bs) i := by
    rw [byteAt_drop, Nat.add_zero]
  have h2 : byteAt (xs.drop i) 0 = byteAt xs i := by
    rw [byteAt_drop, Nat.add_zero]
  rw [← h1, drop_writeAt_ge xs p bs i h, h2]

theorem writeAt_writeAt (xs : List Nat) (p : Nat) (as bs : List Nat) :
    writeAt (writeAt xs p as) (p + as.length) bs = writeAt xs p (as ++ bs) := by
  have hW : writeAt xs p as
      = ((xs.take p ++ List.replicate (p - xs.length) 0) ++ as) ++ xs.drop (p + as.length) := by
    rw [writeAt_eq]
    simp
  have hWA : ((xs.take p ++ List.replicate (p - xs.length) 0) ++ as).length = p + as.length := by
    rw [List.length_append, pad_take_length]
  have hlen : (writeAt xs p as).length = (p + as.length) ⊔ xs.length := writeAt_length xs p as
  have hrep : (p + as.length) - (writeAt xs p as).length = 0 := by omega
  have htake : (writeAt xs p as).take (p + as.length)
      = (xs.take p ++ List.replicate (p - xs.length) 0) ++ as := by
    rw [hW, List.take_left' hWA]
  have hdrop : (writeAt xs p as).drop (p + as.length + bs.length)
      = xs.drop (p + (as ++ bs).length) := by
    rw [drop_writeAt_ge xs p as _ (by omega)]
    congr 1
    simp
    omega
  rw [writeAt, hrep, htake, hdrop, writeAt_eq]
  simp

theorem stream_write_bytes_bytes (s : STREAM) (as bs : List Nat) :
    stream_write_bytes (stream_write_bytes s as) bs = stream_write_bytes s (as ++ bs) := by
  simp [stream_write_bytes, writeAt_writeAt, Nat.add_assoc]

/-! ## Protocol constants (constants.h / rdp.h) -/

def SEC_ENCRYPT : Nat := 0x0008

def SEC_SECURE_CHECKSUM : Nat := 0x0800

def SEC_REDIRECTION_PKT : Nat := 0x0400

def ENCRYPTION_METHOD_FIPS : Nat := 0x10

def MCS_BASE_CHANNEL_ID : Nat := 1001

def MCS_GLOBAL_CHANNEL_ID : Nat := 1003

def RDP_PACKET_HEADER_MAX_LENGTH : Nat := 15

def RDP_SHARE_CONTROL_HEADER_LENGTH : Nat := 6

def RDP_SHARE_DATA_HEADER_LENGTH : Nat := 12

def PDU_TYPE_DATA : Nat := 0x7

def PDU_TYPE_DEACTIVATE_ALL : Nat := 0x6

def PDU_TYPE_SERVER_REDIRECTION : Nat := 0xA

def STREAM_LOW : Nat := 1

def PACKET_COMPRESSED : Nat := 0x20

def DATA_PDU_TYPE_SET_ERROR_INFO : Nat := 0x2F

def FASTPATH_OUTPUT_SECURE_CHECKSUM : Nat := 0x1

def FASTPATH_OUTPUT_ENCRYPTED : Nat := 0x2

def DomainMCSPDU_SendDataRequest : Nat := 25

def DomainMCSPDU_SendDataIndication : Nat := 26

def DomainMCSPDU_DisconnectProviderUltimatum : Nat := 8

/-! ## Session data model -/

/-- The settings fields of `rdpSettings` that rdp.c reads or writes. -/
structure rdpSettings where
  server_mode : Bool
  encryption : Bool
  encryption_method : Nat
  share_id : Nat
  pdu_source : Nat
  frame_acknowledge : Nat
deriving DecidableEq

/-- The fields of `rdpRdp` (plus `rdp->mcs->user_id` and
`rdp->fastpath->encryptionFlags`) that rdp.c reads or writes. -/
structure rdpRdp where
  settings : rdpSettings
  sec_flags : Nat
  do_crypt : Bool
  do_secure_checksum : Bool
  disconnect : Bool
  user_id : Nat
  errorInfo : Nat
  fastpath_encryptionFlags : Nat
deriving DecidableEq

/-- The five uint16/uint8/uint32 locals filled by
`rdp_read_share_data_header`; `rdp_recv_data_pdu` uses them even when
the read fails, so the model carries the (in C: indeterminate) values
they hold in that case. -/
structure SDFields where
  length : Nat
  ty : Nat
  share_id : Nat
  compressed_type : Nat
  compressed_len : Nat
deriving DecidableEq

/-- External collaborators of rdp.c, as oracles: the security
primitives of security.c, the MPPC decompressor, the results of
sibling handlers, and the transport.  A signature/MAC primitive fills
a caller-supplied 8-byte buffer and a cipher works in place, so their
outputs are normalised to the required length with `normN` at the call
sites. -/
structure ExtOracle where
  fips_decrypt : List Nat → Option (List Nat)
  fips_sig_ok : List Nat → List Nat → Bool
  rc4_decrypt : List Nat → List Nat
  rc4_encrypt : List Nat → List Nat
  fips_encrypt : List Nat → List Nat
  hmac_sig : List Nat → List Nat
  mac_sig : List Nat → List Nat
  salted_mac_sig : Bool → List Nat → List Nat
  decomp : List Nat → Int → Nat → Option (List Nat)
  uninit_sd : SDFields
  deact_ok : Bool
  updates_ok : Bool
  transport_ok : Bool

/-! ## Spec-modelled helpers (mcs.c / per.c / tpkt.c / fastpath.c)

These callees of rdp.c are not part of rdp.c itself; they are modelled
from the specification (sections 4.2, 4.5, 6 and the glossary). -/

/-- Modelled from the spec: `per_write_integer16` of per.c is not in
rdp.c.  A pseudo-PER constrained integer16 is two big-endian bytes of
(value − minimum) (spec section 4.2). -/
def per_write_integer16 (s : STREAM) (v : Nat) (minv : Nat) : STREAM :=
  stream_write_uint16_be s (u16_of_int ((v : Int) - (minv : Int)))

/-- Modelled from the spec: `per_read_integer16` of per.c is not in
rdp.c.  Reads two big-endian bytes and adds the minimum back. -/
def per_read_integer16 (s : STREAM) (minv : Nat) : Nat × STREAM :=
  let r := stream_read_uint16_be s
  (r.1 + minv, r.2)

/-- Modelled from the spec: `per_read_length` of per.c is not in
rdp.c.  A PER length determinant: one byte, or two bytes holding a
14-bit value when the first byte has the high bit set (the emit side
always uses the forced two-byte form, spec section 4.2). -/
def per_read_length (s : STREAM) : Option (Nat × STREAM) :=
  let r1 := stream_read_uint8 s
  if r1.1 &&& 0x80 ≠ 0 then
    let r2 := stream_read_uint8 r1.2
    some (((r1.1 &&& 0x7F) <<< 8) ||| r2.1, r2.2)
  else
    some (r1.1, r1.2)

/-- Modelled from the spec: `per_read_enumerated` of per.c is not in
rdp.c.  One byte, failing when it exceeds the enumeration count. -/
def per_read_enumerated (s : STREAM) (count : Nat) : Option (Nat × STREAM) :=
  let r := stream_read_uint8 s
  if r.1 > count then none else some (r.1, r.2)

/-- Modelled from the spec: `mcs_write_domain_mcspdu_header` of mcs.c
is not in rdp.c.  The outermost envelope starts with TPKT framing
(`0x03 0x00 len_hi len_lo`, glossary), the fixed 3-byte X.224 data
TPDU, then the one-byte Domain-MCS-PDU choice `(mcspdu << 2) |
options`; with the two PER integer16 fields, the priority byte and the
2-byte user-data length written by `rdp_write_header` this forms the
15-byte `RDP_PACKET_HEADER_MAX_LENGTH` prefix of spec section 4.9. -/
def mcs_write_domain_mcspdu_header (s : STREAM) (mcspdu : Nat) (length : Nat)
    (options : Nat) : STREAM :=
  let s := stream_write_uint8 s 3
  let s := stream_write_uint8 s 0
  let s := stream_write_uint16_be s length
  let s := stream_write_bytes s [2, 0xF0, 0x80]
  stream_write_uint8 s ((mcspdu <<< 2) ||| options)

/-- Modelled from the spec: `mcs_read_domain_mcspdu_header` of mcs.c
is not in rdp.c.  Decodes the same fixed 8-byte prefix (TPKT version
must be 3; the spec's decode path only covers TPKT slow-path frames),
returning the declared TPKT frame length, and accepts either the
expected Send-Data choice or DisconnectProviderUltimatum (spec section
4.2). -/
def mcs_read_domain_mcspdu_header (expected : Nat) (s : STREAM) :
    Option (Nat × Nat × STREAM) :=
  let rv := stream_read_uint8 s
  if rv.1 ≠ 3 then none
  else
    let s1 := stream_seek rv.2 1
    let rl := stream_read_uint16_be s1
    let s2 := stream_seek rl.2 3
    let rc := stream_read_uint8 s2
    let mcspdu := rc.1 >>> 2
    if mcspdu ≠ expected ∧ mcspdu ≠ DomainMCSPDU_DisconnectProviderUltimatum then none
    else some (mcspdu, rl.1, rc.2)

/-- Modelled from the spec: `fastpath_read_header_rdp` of fastpath.c
is not in rdp.c.  Parses the 1-byte action+flags prefix (encryption
flags in the top two bits) and a 1- or 2-byte length with high-bit
continuation, returning the declared length minus the bytes consumed
so far (spec section 4.5). -/
def fastpath_read_header_rdp (rdp : rdpRdp) (s : STREAM) : Nat × rdpRdp × STREAM :=
  let rh := stream_read_uint8 s
  let rdp := { rdp with fastpath_encryptionFlags := (rh.1 &&& 0xC0) >>> 6 }
  let r1 := stream_read_uint8 rh.2
  let rl :=
    if r1.1 &&& 0x80 ≠ 0 then
      let r2 := stream_read_uint8 r1.2
      (((r1.1 &&& 0x7F) <<< 8) ||| r2.1, r2.2)
    else (r1.1, r1.2)
  (rl.1 - stream_get_length rl.2, rdp, rl.2)

/-- Modelled from the spec: `transport_send_stream_init` of
transport.c is not in rdp.c; every rdp.c call site requests a 2048
byte buffer, modelled as freshly zeroed. -/
def transport_send_stream_init : STREAM :=
  { data := List.replicate 2048 0, pos := 0, size := 2048 }

/-! ## rdp.c: security and share headers -/

/-- rdp.c `rdp_read_security_header`: flags (LE u16), then the unused
flagsHi. -/
def rdp_read_security_header (s : STREAM) : Nat × STREAM :=
  let r := stream_read_uint16 s
  (r.1, stream_seek r.2 2)

/-- rdp.c `rdp_write_security_header`. -/
def rdp_write_security_header (s : STREAM) (flags : Nat) : STREAM :=
  let s := stream_write_uint16 s flags
  stream_write_uint16 s 0

/-- rdp.c `rdp_read_share_control_header`.  On the early failure
return the C code has not assigned `*type`/`*channel_id`; the model
reports 0 for both in that case (the callers under verification never
use them then). -/
def rdp_read_share_control_header (s : STREAM) : Bool × Nat × Nat × Nat × STREAM :=
  let rl := stream_read_uint16 s
  if (rl.1 : Int) - 2 > stream_get_left rl.2 then
    (false, rl.1, 0, 0, rl.2)
  else
    let rt := stream_read_uint16 rl.2
    let ty := rt.1 &&& 0x0F
    if rl.1 > 4 then
      let rc := stream_read_uint16 rt.2
      (true, rl.1, ty, rc.1, rc.2)
    else
      (true, rl.1, ty, 0, rt.2)

/-- rdp.c `rdp_write_share_control_header`. -/
def rdp_write_share_control_header (s : STREAM) (length : Nat) (ty : Nat)
    (channel_id : Nat) : STREAM :=
  let len := u16_of_int ((length : Int) - (RDP_PACKET_HEADER_MAX_LENGTH : Int))
  let s := stream_write_uint16 s len
  let s := stream_write_uint16 s (ty ||| 0x10)
  stream_write_uint16 s channel_id

/-- rdp.c `rdp_read_share_data_header`. -/
def rdp_read_share_data_header (s : STREAM) : Option (SDFields × STREAM) :=
  if stream_get_left s < 12 then none
  else
    let rs := stream_read_uint32 s
    let s := stream_seek rs.2 1
    let s := stream_seek s 1
    let rl := stream_read_uint16 s
    let rt := stream_read_uint8 rl.2
    let rc := stream_read_uint8 rt.2
    let rz := stream_read_uint16 rc.2
    some ({ length := rl.1, ty := rt.1, share_id := rs.1,
            compressed_type := rc.1, compressed_len := rz.1 }, rz.2)

/-- rdp.c `rdp_write_share_data_header`. -/
def rdp_write_share_data_header (s : STREAM) (length : Nat) (ty : Nat)
    (share_id : Nat) : STREAM :=
  let len := u16_of_int ((length : Int) - (RDP_PACKET_HEADER_MAX_LENGTH : Int)
    - (RDP_SHARE_CONTROL_HEADER_LENGTH : Int) - (RDP_SHARE_DATA_HEADER_LENGTH : Int))
  let s := stream_write_uint32 s share_id
  let s := stream_write_uint8 s 0
  let s := stream_write_uint8 s STREAM_LOW
  let s := stream_write_uint16 s len
  let s := stream_write_uint8 s ty
  let s := stream_write_uint8 s 0
  stream_write_uint16 s 0

/-! ## rdp.c: packet stream initialisation -/

/-- rdp.c `rdp_security_stream_init`. -/
def rdp_security_stream_init (rdp : rdpRdp) (s : STREAM) : rdpRdp × STREAM :=
  if rdp.do_crypt then
    let s := stream_seek s 12
    let s := if rdp.settings.encryption_method = ENCRYPTION_METHOD_FIPS
      then stream_seek s 4 else s
    let rdp := { rdp with sec_flags := rdp.sec_flags ||| SEC_ENCRYPT }
    let rdp := if rdp.do_secure_checksum
      then { rdp with sec_flags := rdp.sec_flags ||| SEC_SECURE_CHECKSUM } else rdp
    (rdp, s)
  else if rdp.sec_flags ≠ 0 then (rdp, stream_seek s 4)
  else (rdp, s)

/-- rdp.c `rdp_send_stream_init`. -/
def rdp_send_stream_init (rdp : rdpRdp) : rdpRdp × STREAM :=
  let s := transport_send_stream_init
  let s := stream_seek s RDP_PACKET_HEADER_MAX_LENGTH
  rdp_security_stream_init rdp s

/-- rdp.c `rdp_pdu_init`. -/
def rdp_pdu_init (rdp : rdpRdp) : rdpRdp × STREAM :=
  let s := transport_send_stream_init
  let s := stream_seek s RDP_PACKET_HEADER_MAX_LENGTH
  let r := rdp_security_stream_init rdp s
  (r.1, stream_seek r.2 RDP_SHARE_CONTROL_HEADER_LENGTH)

/-- rdp.c `rdp_data_pdu_init`. -/
def rdp_data_pdu_init (rdp : rdpRdp) : rdpRdp × STREAM :=
  let s := transport_send_stream_init
  let s := stream_seek s RDP_PACKET_HEADER_MAX_LENGTH
  let r := rdp_security_stream_init rdp s
  let s := stream_seek r.2 RDP_SHARE_CONTROL_HEADER_LENGTH
  (r.1, stream_seek s RDP_SHARE_DATA_HEADER_LENGTH)

/-! ## rdp.c: MCS-level header read/write -/

/-- rdp.c `rdp_read_header`.  On a DisconnectProviderUltimatum it sets
the session disconnect latch and reports the global channel; otherwise
it reads initiator, channel, the priority byte and the user-data
length determinant, failing on any length inconsistency. -/
def rdp_read_header (rdp : rdpRdp) (s : STREAM) : Option (Nat × Nat × rdpRdp × STREAM) :=
  let expected := if rdp.settings.server_mode
    then DomainMCSPDU_SendDataRequest else DomainMCSPDU_SendDataIndication
  match mcs_read_domain_mcspdu_header expected s with
  | none => none
  | some (mcspdu, length, s1) =>
    if (length : Int) - 8 > stream_get_left s1 then none
    else if mcspdu = DomainMCSPDU_DisconnectProviderUltimatum then
      match per_read_enumerated s1 0 with
      | none => none
      | some (_, s2) =>
        some (length, MCS_GLOBAL_CHANNEL_ID, { rdp with disconnect := true }, s2)
    else if stream_get_left s1 < 5 then none
    else
      let ri := per_read_integer16 s1 MCS_BASE_CHANNEL_ID
      let rc := per_read_integer16 ri.2 0
      let s2 := stream_seek rc.2 1
      match per_read_length s2 with
      | none => none
      | some (length2, s3) =>
        if (length2 : Int) > stream_get_left s3 then none
        else some (length2, rc.1, rdp, s3)

/-- rdp.c `rdp_write_header`.  With SEC_ENCRYPT staged in FIPS mode
the outer length is adjusted by the pad that
`rdp_security_stream_out` will add (C `int` remainder, hence
`Int.tmod`). -/
def rdp_write_header (rdp : rdpRdp) (s : STREAM) (length : Nat) (channel_id : Nat) : STREAM :=
  let mcspdu := if rdp.settings.server_mode
    then DomainMCSPDU_SendDataIndication else DomainMCSPDU_SendDataRequest
  let length :=
    if rdp.sec_flags &&& SEC_ENCRYPT ≠ 0
        ∧ rdp.settings.encryption_method = ENCRYPTION_METHOD_FIPS then
      let body_length : Int := (length : Int) - (RDP_PACKET_HEADER_MAX_LENGTH : Int) - 16
      let pad : Int := 8 - body_length.tmod 8
      if pad ≠ 8 then ((length : Int) + pad).toNat else length
    else length
  let s := mcs_write_domain_mcspdu_header s mcspdu length 0
  let s := per_write_integer16 s rdp.user_id MCS_BASE_CHANNEL_ID
  let s := per_write_integer16 s channel_id 0
  let s := stream_write_uint8 s 0x70
  stream_write_uint16_be s
    (u16_of_int ((length : Int) - (RDP_PACKET_HEADER_MAX_LENGTH : Int)) ||| 0x8000)

/-! ## rdp.c: outbound security envelope and the three send paths -/

/-- rdp.c `rdp_security_stream_out`: writes the Basic Security Header
when flags are staged, MAC-signs and encrypts in place (FIPS: zero-pad
to a multiple of 8, record the pad, HMAC the plaintext, 3DES the
padded region; legacy: 8-byte MAC then RC4), clears the staged flags,
and returns the FIPS pad. -/
def rdp_security_stream_out (env : ExtOracle) (rdp : rdpRdp) (s : STREAM)
    (length : Nat) : Nat × rdpRdp × STREAM :=
  let sec_flags := rdp.sec_flags
  if sec_flags ≠ 0 then
    let s := rdp_write_security_header s sec_flags
    if sec_flags &&& SEC_ENCRYPT ≠ 0 then
      if rdp.settings.encryption_method = ENCRYPTION_METHOD_FIPS then
        let dataPos := s.pos + 12
        let len := length - dataPos
        let s := stream_write_uint16 s 0x10
        let s := stream_write_uint8 s 0x1
        let pad := (8 - len % 8) &&& 7
        let s := spliceAt s (dataPos + len) (List.replicate pad 0)
        let s := stream_write_uint8 s pad
        let sig := normN 8 (env.hmac_sig (regionOf s.data dataPos len))
        let s := stream_write_bytes s sig
        let s := spliceAt s dataPos
          (normN (len + pad) (env.fips_encrypt (regionOf s.data dataPos (len + pad))))
        (pad, { rdp with sec_flags := 0 }, s)
      else
        let dataPos := s.pos + 8
        let len := length - dataPos
        let mac := normN 8 (if sec_flags &&& SEC_SECURE_CHECKSUM ≠ 0
          then env.salted_mac_sig true (regionOf s.data dataPos len)
          else env.mac_sig (regionOf s.data dataPos len))
        let s := stream_write_bytes s mac
        let s := spliceAt s s.pos (normN len (env.rc4_encrypt (regionOf s.data s.pos len)))
        (0, { rdp with sec_flags := 0 }, s)
    else (0, { rdp with sec_flags := 0 }, s)
  else (0, rdp, s)

/-- rdp.c `rdp_get_sec_bytes`. -/
def rdp_get_sec_bytes (rdp : rdpRdp) : Nat :=
  if rdp.sec_flags &&& SEC_ENCRYPT ≠ 0 then
    if rdp.settings.encryption_method = ENCRYPTION_METHOD_FIPS then 16 else 12
  else if rdp.sec_flags ≠ 0 then 4
  else 0

/-- rdp.c `rdp_send`. -/
def rdp_send (env : ExtOracle) (rdp : rdpRdp) (s : STREAM) (channel_id : Nat) :
    Bool × rdpRdp × STREAM :=
  let length := stream_get_length s
  let s := stream_set_pos s 0
  let s := rdp_write_header rdp s length channel_id
  let sec_bytes := rdp_get_sec_bytes rdp
  let sec_hold := s.pos
  let s := stream_seek s sec_bytes
  let s := stream_set_pos s sec_hold
  let out := rdp_security_stream_out env rdp s length
  let length := length + out.1
  let s := stream_set_pos out.2.2 length
  if env.transport_ok then (true, out.2.1, s) else (false, out.2.1, s)

/-- rdp.c `rdp_send_pdu`. -/
def rdp_send_pdu (env : ExtOracle) (rdp : rdpRdp) (s : STREAM) (ty : Nat)
    (channel_id : Nat) : Bool × rdpRdp × STREAM :=
  let length := stream_get_length s
  let s := stream_set_pos s 0
  let s := rdp_write_header rdp s length MCS_GLOBAL_CHANNEL_ID
  let sec_bytes := rdp_get_sec_bytes rdp
  let sec_hold := s.pos
  let s := stream_seek s sec_bytes
  let s := rdp_write_share_control_header s (length - sec_bytes) ty channel_id
  let s := stream_set_pos s sec_hold
  let out := rdp_security_stream_out env rdp s length
  let length := length + out.1
  let s := stream_set_pos out.2.2 length
  if env.transport_ok then (true, out.2.1, s) else (false, out.2.1, s)

/-- rdp.c `rdp_send_data_pdu`. -/
def rdp_send_data_pdu (env : ExtOracle) (rdp : rdpRdp) (s : STREAM) (ty : Nat)
    (channel_id : Nat) : Bool × rdpRdp × STREAM :=
  let length := stream_get_length s
  let s := stream_set_pos s 0
  let s := rdp_write_header rdp s length MCS_GLOBAL_CHANNEL_ID
  let sec_bytes := rdp_get_sec_bytes rdp
  let sec_hold := s.pos
  let s := stream_seek s sec_bytes
  let s := rdp_write_share_control_header s (length - sec_bytes) PDU_TYPE_DATA channel_id
  let s := rdp_write_share_data_header s (length - sec_bytes) ty rdp.settings.share_id
  let s := stream_set_pos s sec_hold
  let out := rdp_security_stream_out env rdp s length
  let length := length + out.1
  let s := stream_set_pos out.2.2 length
  if env.transport_ok then (true, out.2.1, s) else (false, out.2.1, s)

/-! ## rdp.c: decrypt and the receive paths -/

/-- rdp.c `rdp_decrypt`.  Returns (success, stream, warned): `warned`
models the non-FIPS signature-mismatch diagnostic, which the C code
only logs.  FIPS: read the 4-byte FIPS header and the 8-byte
signature, 3DES-decrypt in place, verify the HMAC over
plaintext[0 .. len − pad] and shrink the logical size by the pad;
either failure is returned as failure.  Legacy: read the 8-byte wire
MAC, RC4-decrypt in place, compare against the computed (salted or
plain) MAC and return success regardless. -/
def rdp_decrypt (env : ExtOracle) (rdp : rdpRdp) (s : STREAM) (length : Int)
    (securityFlags : Nat) : Bool × STREAM × Bool :=
  if rdp.settings.encryption_method = ENCRYPTION_METHOD_FIPS then
    let rl := stream_read_uint16 s
    let rv := stream_read_uint8 rl.2
    let rp := stream_read_uint8 rv.2
    let pad := rp.1
    let sig := (suffixAt rp.2).take 8
    let s4 := stream_seek rp.2 8
    let len2 := length - 12
    match env.fips_decrypt (regionOf s4.data s4.pos len2.toNat) with
    | none => (false, s4, false)
    | some pt =>
      let s5 := spliceAt s4 s4.pos (normN len2.toNat pt)
      if env.fips_sig_ok (regionOf s5.data s5.pos (len2 - (pad : Int)).toNat) sig then
        (true, { s5 with size := s5.size - pad }, false)
      else (false, s5, false)
  else
    let rw := stream_read_bytes s 8
    let wmac := rw.1
    let s1 := rw.2
    let len2 := length - 8
    let pt := normN len2.toNat (env.rc4_decrypt (regionOf s1.data s1.pos len2.toNat))
    let s2 := spliceAt s1 s1.pos pt
    let cmac := normN 8 (if securityFlags &&& SEC_SECURE_CHECKSUM ≠ 0
      then env.salted_mac_sig false (regionOf s2.data s2.pos len2.toNat)
      else env.mac_sig (regionOf s2.data s2.pos len2.toNat))
    (true, s2, decide (wmac ≠ cmac))

/-- rdp.c `rdp_recv_set_error_info_data_pdu` plus the dispatch switch
of `rdp_recv_data_pdu`: of all the Data-PDU handlers only the
Set-Error-Info one touches state modelled here (it stores `errorInfo`
on the session); the remaining handlers live in other files and return
no status. -/
def dataTypeDispatch (rdp : rdpRdp) (ty : Nat) (cs : STREAM) : rdpRdp :=
  if ty = DATA_PDU_TYPE_SET_ERROR_INFO then
    { rdp with errorInfo := (stream_read_uint32 cs).1 }
  else rdp

/-- rdp.c `rdp_recv_data_pdu`.  The boolean result of
`rdp_read_share_data_header` is discarded by the C code; on its
failure the locals keep indeterminate values, modelled by
`env.uninit_sd`, and the cursor has not moved.  A compressed payload
goes through the decompressor (a failure there is the only failure
this function reports); dispatch then runs on the decompressed view or
on the stream itself. -/
def rdp_recv_data_pdu (env : ExtOracle) (rdp : rdpRdp) (s : STREAM) : Bool × rdpRdp :=
  let hr := rdp_read_share_data_header s
  let f := (hr.map Prod.fst).getD env.uninit_sd
  let s1 := (hr.map Prod.snd).getD s
  if f.compressed_type &&& PACKET_COMPRESSED ≠ 0 then
    match env.decomp (suffixAt s1) ((f.compressed_len : Int) - 18) f.compressed_type with
    | some out => (true, dataTypeDispatch rdp f.ty { data := out, pos := 0, size := out.length })
    | none => (false, rdp)
  else (true, dataTypeDispatch rdp f.ty s1)

/-- One dispatch of the Share Control switch inside
`rdp_recv_tpkt_pdu`: DATA runs `rdp_recv_data_pdu`, DEACTIVATE_ALL the
(external) deactivate handler, SERVER_REDIRECTION the (external)
redirection handler whose result is not checked, anything else is
logged and skipped. -/
def pduDispatch (env : ExtOracle) (pduType : Nat) (rdp : rdpRdp) (s : STREAM) :
    Bool × rdpRdp :=
  if pduType = PDU_TYPE_DATA then rdp_recv_data_pdu env rdp s
  else if pduType = PDU_TYPE_DEACTIVATE_ALL then (env.deact_ok, rdp)
  else (true, rdp)

/-- One dispatched Share Control PDU of a multi-PDU envelope, as
instrumentation: its (masked) type, its pduSource, the cursor at its
start and the cursor the loop restores afterwards. -/
structure PduEventR where
  ty : Nat
  src : Nat
  start : Nat
  next : Nat
deriving DecidableEq

/-- The `while (stream_get_left(s) > 3)` loop of `rdp_recv_tpkt_pdu`,
with explicit fuel (the C loop has none; every theorem supplies enough
for the envelope at hand).  Per iteration: remember the mark, read the
Share Control Header (its boolean result is discarded, as in C),
record pduSource into the settings, dispatch, and restore the cursor
to mark + pduLength.  The dispatched events are returned for the
statements about dispatch order. -/
def rdp_recv_pdu_loop (env : ExtOracle) (rdp : rdpRdp) (s : STREAM) :
    Nat → Bool × rdpRdp × STREAM × List PduEventR
  | 0 => (true, rdp, s, [])
  | fuel + 1 =>
    if stream_get_left s > 3 then
      let start := s.pos
      let r := rdp_read_share_control_header s
      let pduLength := r.2.1
      let pduType := r.2.2.1
      let pduSource := r.2.2.2.1
      let s1 := r.2.2.2.2
      let nextp := start + pduLength
      let rdp1 := { rdp with settings := { rdp.settings with pdu_source := pduSource } }
      let ev : PduEventR := { ty := pduType, src := pduSource, start := start, next := nextp }
      let d := pduDispatch env pduType rdp1 s1
      if d.1 = false then (false, d.2, s1, [ev])
      else
        let s2 := stream_set_pos s1 nextp
        let rest := rdp_recv_pdu_loop env d.2 s2 fuel
        (rest.1, rest.2.1, rest.2.2.1, ev :: rest.2.2.2)
    else (true, rdp, s, [])

/-- The tail of `rdp_recv_tpkt_pdu` after the security envelope: a
non-global channel goes to the (external) channel router, the global
channel to the Share Control loop. -/
def rdp_recv_tpkt_global (env : ExtOracle) (rdp : rdpRdp) (s : STREAM)
    (channelId : Nat) (fuel : Nat) : Bool × rdpRdp × STREAM × List PduEventR :=
  if channelId ≠ MCS_GLOBAL_CHANNEL_ID then (true, rdp, s, [])
  else rdp_recv_pdu_loop env rdp s fuel

/-- rdp.c `rdp_recv_tpkt_pdu`: MCS header (fail on error), the
disconnect latch (fail when set), the security header and decrypt when
encryption is on (fail when `rdp_decrypt` fails), the redirection
short-circuit, then per-channel dispatch. -/
def rdp_recv_tpkt_pdu (env : ExtOracle) (rdp : rdpRdp) (s : STREAM) (fuel : Nat) :
    Bool × rdpRdp × STREAM × List PduEventR :=
  match rdp_read_header rdp s with
  | none => (false, rdp, s, [])
  | some (length, channelId, rdp1, s1) =>
    if rdp1.disconnect then (false, rdp1, s1, [])
    else if rdp1.settings.encryption then
      let rh := rdp_read_security_header s1
      let securityFlags := rh.1
      let s2 := rh.2
      if securityFlags &&& (SEC_ENCRYPT ||| SEC_REDIRECTION_PKT) ≠ 0 then
        let d := rdp_decrypt env rdp1 s2 ((length : Int) - 4) securityFlags
        if d.1 = false then (false, rdp1, d.2.1, [])
        else if securityFlags &&& SEC_REDIRECTION_PKT ≠ 0 then
          (true, rdp1, stream_set_pos d.2.1 (d.2.1.pos - 2), [])
        else rdp_recv_tpkt_global env rdp1 d.2.1 channelId fuel
      else if securityFlags &&& SEC_REDIRECTION_PKT ≠ 0 then
        (true, rdp1, stream_set_pos s2 (s2.pos - 2), [])
      else rdp_recv_tpkt_global env rdp1 s2 channelId fuel
    else rdp_recv_tpkt_global env rdp1 s1 channelId fuel

/-- rdp.c `rdp_recv_fastpath_pdu`: parse the fast-path header, bound
the declared length, and when the encrypted flag is set call
`rdp_decrypt` with a synthesized securityFlags — discarding its
result, exactly as the C code does — before handing the payload to the
(external) fast-path update processor. -/
def rdp_recv_fastpath_pdu (env : ExtOracle) (rdp : rdpRdp) (s : STREAM) :
    Bool × rdpRdp × STREAM :=
  let rh := fastpath_read_header_rdp rdp s
  let length := rh.1
  let rdp := rh.2.1
  let s := rh.2.2
  if length = 0 ∨ (length : Int) > stream_get_left s then (false, rdp, s)
  else if rdp.fastpath_encryptionFlags &&& FASTPATH_OUTPUT_ENCRYPTED ≠ 0 then
    let securityFlags := if rdp.fastpath_encryptionFlags &&& FASTPATH_OUTPUT_SECURE_CHECKSUM ≠ 0
      then SEC_SECURE_CHECKSUM else 0
    let d := rdp_decrypt env rdp s (length : Int) securityFlags
    (env.updates_ok, rdp, d.2.1)
  else (env.updates_ok, rdp, s)

/-- rdp.c `rdp_send_frame_ack`: a no-op returning 0 when
`frame_acknowledge` is 0; otherwise builds a Data PDU whose body is
the 32-bit frame value, sends it as Data PDU type 56 on the user_id
channel (ignoring the send result) and returns 0. -/
def rdp_send_frame_ack (env : ExtOracle) (rdp : rdpRdp) (frame : Nat) :
    Int × rdpRdp × Option STREAM :=
  if rdp.settings.frame_acknowledge = 0 then (0, rdp, none)
  else
    let init := rdp_data_pdu_init rdp
    let s := stream_write_uint32 init.2 frame
    let r := rdp_send_data_pdu env init.1 s 56 init.1.user_id
    (0, r.2.1, some r.2.2)

/-! ## Stream decode support lemmas -/

@[simp] theorem suffixAt_seek (s : STREAM) (n : Nat) :
    suffixAt (stream_seek s n) = (suffixAt s).drop n := by
  simp [suffixAt, stream_seek, List.drop_drop, Nat.add_comm]

theorem stream_seek_seek (s : STREAM) (m n : Nat) :
    stream_seek (stream_seek s m) n = stream_seek s (m + n) := by
  simp [stream_seek, Nat.add_assoc]

@[simp] theorem stream_get_left_seek (s : STREAM) (n : Nat) :
    stream_get_left (stream_seek s n) = stream_get_left s - n := by
  simp [stream_get_left, stream_seek]
  ring

@[simp] theorem stream_seek_pos (s : STREAM) (n : Nat) : (stream_seek s n).pos = s.pos + n := rfl

@[simp] theorem stream_seek_data (s : STREAM) (n : Nat) : (stream_seek s n).data = s.data := rfl

@[simp] theorem stream_seek_size (s : STREAM) (n : Nat) : (stream_seek s n).size = s.size := rfl

/-! ## C6: the Share Control reader tolerates declared length at most 4 -/

/-- C6: for every input stream holding at least 4 bytes whose Share
Control header declares totalLength ≤ 4, `rdp_read_share_control_header`
returns success with the declared length, the low 4 bits of the pduType
field as type, and channel_id = 0, consuming exactly 4 bytes: no
pduSource field is read. -/
theorem c6_short_share_control_header (s : STREAM)
    (hleft : (4 : Int) ≤ stream_get_left s)
    (hdecl : decodeU16le (suffixAt s) ≤ 4) :
    rdp_read_share_control_header s =
      (true, decodeU16le (suffixAt s), decodeU16le ((suffixAt s).drop 2) &&& 0x0F, 0,
        stream_seek s 4) := by
  rw [rdp_read_share_control_header]
  simp only [stream_read_uint16, suffixAt_seek, stream_get_left_seek]
  rw [if_neg (by omega), if_neg (by omega), stream_seek_seek]

/-- Witness for C6 at the spec's concrete input [0x04 0x00, 0x16 0x00]:
length 4, type 6, channel 0, cursor advanced exactly 4 bytes. -/
theorem c6_short_share_control_header_witness :
    (4 : Int) ≤ stream_get_left (STREAM.mk [4, 0, 0x16, 0] 0 4) ∧
    decodeU16le (suffixAt (STREAM.mk [4, 0, 0x16, 0] 0 4)) ≤ 4 ∧
    rdp_read_share_control_header (STREAM.mk [4, 0, 0x16, 0] 0 4) =
      (true, 4, 6, 0, STREAM.mk [4, 0, 0x16, 0] 4 4) := by
  refine ⟨by decide, by decide, ?_⟩
  have h := c6_short_share_control_header (STREAM.mk [4, 0, 0x16, 0] 0 4)
    (by decide) (by decide)
  rw [h]
  decide

/-! ## C9: rdp_recv_data_pdu discards the Share Data header result -/

/-- C9: on any stream with fewer than 12 bytes remaining the Share Data
header read reports failure, yet `rdp_recv_data_pdu` does not fail on
that account: it dispatches on the indeterminate (unread) header
fields.  With the indeterminate compressed bit clear it returns
success and dispatches the indeterminate type on the unmoved stream;
with the bit set its result even depends on the indeterminate values
through the decompressor. -/
theorem c9_data_header_result_discarded (env : ExtOracle) (rdp : rdpRdp) (s : STREAM)
    (h : stream_get_left s < 12) :
    rdp_read_share_data_header s = none ∧
    (env.uninit_sd.compressed_type &&& PACKET_COMPRESSED = 0 →
      rdp_recv_data_pdu env rdp s = (true, dataTypeDispatch rdp env.uninit_sd.ty s)) ∧
    (env.uninit_sd.compressed_type &&& PACKET_COMPRESSED ≠ 0 →
      env.decomp (suffixAt s) ((env.uninit_sd.compressed_len : Int) - 18)
        env.uninit_sd.compressed_type = none →
      (rdp_recv_data_pdu env rdp s).1 = false) := by
  have hnone : rdp_read_share_data_header s = none := by
    rw [rdp_read_share_data_header, if_pos h]
  refine ⟨hnone, ?_, ?_⟩
  · intro hc
    rw [rdp_recv_data_pdu, hnone]
    simp [hc]
  · intro hc hd
    rw [rdp_recv_data_pdu, hnone]
    simp [hc, hd]

/-- Witness for C9: an 8-byte stream (fewer than 12 bytes left), any
session, an oracle whose indeterminate fields have the compressed bit
clear. -/
theorem c9_data_header_result_discarded_witness :
    stream_get_left (STREAM.mk [0, 0, 0, 0, 0, 0, 0, 0] 0 8) < 12 ∧
    rdp_read_share_data_header (STREAM.mk [0, 0, 0, 0, 0, 0, 0, 0] 0 8) = none ∧
    rdp_recv_data_pdu
      (ExtOracle.mk (fun _ => none) (fun _ _ => false) id id id (fun _ => [])
        (fun _ => []) (fun _ _ => []) (fun _ _ _ => none) (SDFields.mk 0 0 0 0 0)
        true true true)
      (rdpRdp.mk (rdpSettings.mk false false 0 0 0 0) 0 false false false 0 0 0)
      (STREAM.mk [0, 0, 0, 0, 0, 0, 0, 0] 0 8)
      = (true, rdpRdp.mk (rdpSettings.mk false false 0 0 0 0) 0 false false false 0 0 0) := by
  have h := c9_data_header_result_discarded
    (ExtOracle.mk (fun _ => none) (fun _ _ => false) id id id (fun _ => [])
      (fun _ => []) (fun _ _ => []) (fun _ _ _ => none) (SDFields.mk 0 0 0 0 0)
      true true true)
    (rdpRdp.mk (rdpSettings.mk false false 0 0 0 0) 0 false false false 0 0 0)
    (STREAM.mk [0, 0, 0, 0, 0, 0, 0, 0] 0 8) (by decide)
  refine ⟨by decide, h.1, ?_⟩
  rw [h.2.1 (by decide)]
  decide

/-! ## C3: every successful outbound frame clears the staged sec_flags -/

theorem rdp_security_stream_out_clears (env : ExtOracle) (rdp : rdpRdp) (s : STREAM)
    (length : Nat) : (rdp_security_stream_out env rdp s length).2.1.sec_flags = 0 := by
  rw [rdp_security_stream_out]
  by_cases h0 : rdp.sec_flags = 0
  · simp [h0]
  · simp only [h0, if_true, ne_eq, not_false_iff, ite_not]
    split_ifs <;> rfl

/-- C3: after any of `rdp_send`, `rdp_send_pdu`, `rdp_send_data_pdu`
returns success, the session's staged `sec_flags` is zero, whatever
its value was when the send began (the clearing in
`rdp_security_stream_out` runs before the transport write). -/
theorem c3_sec_flags_cleared_after_send (env : ExtOracle) (rdp : rdpRdp) (s : STREAM)
    (ch ty tyd : Nat) :
    ((rdp_send env rdp s ch).1 = true → (rdp_send env rdp s ch).2.1.sec_flags = 0) ∧
    ((rdp_send_pdu env rdp s ty ch).1 = true →
      (rdp_send_pdu env rdp s ty ch).2.1.sec_flags = 0) ∧
    ((rdp_send_data_pdu env rdp s tyd ch).1 = true →
      (rdp_send_data_pdu env rdp s tyd ch).2.1.sec_flags = 0) := by
  refine ⟨fun _ => ?_, fun _ => ?_, fun _ => ?_⟩
  · rw [rdp_send]
    by_cases ht : env.transport_ok <;>
      simp [ht, rdp_security_stream_out_clears]
  · rw [rdp_send_pdu]
    by_cases ht : env.transport_ok <;>
      simp [ht, rdp_security_stream_out_clears]
  · rw [rdp_send_data_pdu]
    by_cases ht : env.transport_ok <;>
      simp [ht, rdp_security_stream_out_clears]

/-- Witness for C3: a session with a stale staged flag (SEC_EXCHANGE_PKT)
and a working transport; the send succeeds and the staged flags are
cleared. -/
theorem c3_sec_flags_cleared_after_send_witness :
    (rdp_send
      (ExtOracle.mk (fun _ => none) (fun _ _ => false) id id id (fun _ => [])
        (fun _ => []) (fun _ _ => []) (fun _ _ _ => none) (SDFields.mk 0 0 0 0 0)
        true true true)
      (rdpRdp.mk (rdpSettings.mk false false 0 0 0 0) 1 false false false 1007 0 0)
      (STREAM.mk (List.replicate 40 0) 21 40) 1003).1 = true ∧
    (rdp_send
      (ExtOracle.mk (fun _ => none) (fun _ _ => false) id id id (fun _ => [])
        (fun _ => []) (fun _ _ => []) (fun _ _ _ => none) (SDFields.mk 0 0 0 0 0)
        true true true)
      (rdpRdp.mk (rdpSettings.mk false false 0 0 0 0) 1 false false false 1007 0 0)
      (STREAM.mk (List.replicate 40 0) 21 40) 1003).2.1.sec_flags = 0 := by
  refine ⟨by decide, ?_⟩
  exact (c3_sec_flags_cleared_after_send
    (ExtOracle.mk (fun _ => none) (fun _ _ => false) id id id (fun _ => [])
      (fun _ => []) (fun _ _ => []) (fun _ _ _ => none) (SDFields.mk 0 0 0 0 0)
      true true true)
    (rdpRdp.mk (rdpSettings.mk false false 0 0 0 0) 1 false false false 1007 0 0)
    (STREAM.mk (List.replicate 40 0) 21 40) 1003 0 0).1 (by decide)

/-! ## C2: a legacy (non-FIPS) MAC mismatch is not fatal -/

/-- The in-place RC4-decrypted plaintext of a legacy frame: what the C
code leaves at `s->p` after `security_decrypt`. -/
def legacyPlaintext (env : ExtOracle) (s : STREAM) (length : Int) : List Nat :=
  normN (length - 8).toNat
    (env.rc4_decrypt (regionOf s.data (s.pos + 8) (length - 8).toNat))

/-- The MAC `rdp_decrypt` computes over the decrypted payload, salted
or unsalted per the SECURE_CHECKSUM flag. -/
def legacyComputedMac (env : ExtOracle) (s : STREAM) (length : Int)
    (securityFlags : Nat) : List Nat :=
  normN 8 (if securityFlags &&& SEC_SECURE_CHECKSUM ≠ 0
    then env.salted_mac_sig false (legacyPlaintext env s length)
    else env.mac_sig (legacyPlaintext env s length))

/-- C2: in legacy (non-FIPS) mode `rdp_decrypt` always returns
success; the warning flag is raised exactly when the 8-byte wire MAC
differs from the computed MAC, and the stream handed onward carries
the decrypted plaintext in place after the MAC, so higher layers
receive it whether or not the MAC matched. -/
theorem c2_legacy_mac_mismatch_nonfatal (env : ExtOracle) (rdp : rdpRdp) (s : STREAM)
    (length : Int) (securityFlags : Nat)
    (h : rdp.settings.encryption_method ≠ ENCRYPTION_METHOD_FIPS) :
    (rdp_decrypt env rdp s length securityFlags).1 = true ∧
    (rdp_decrypt env rdp s length securityFlags).2.1 =
      STREAM.mk (writeAt s.data (s.pos + 8) (legacyPlaintext env s length))
        (s.pos + 8) s.size ∧
    ((rdp_decrypt env rdp s length securityFlags).2.2 = true ↔
      (suffixAt s).take 8 ≠ legacyComputedMac env s length securityFlags) := by
  rw [rdp_decrypt, if_neg h]
  simp only [stream_read_bytes, spliceAt, stream_seek, suffixAt, legacyPlaintext,
    legacyComputedMac, regionOf]
  have hreg : List.take (length - 8).toNat
      (List.drop (s.pos + 8) (writeAt s.data (s.pos + 8)
        (normN (length - 8).toNat
          (env.rc4_decrypt (List.take (length - 8).toNat (List.drop (s.pos + 8) s.data))))))
      = normN (length - 8).toNat
          (env.rc4_decrypt (List.take (length - 8).toNat (List.drop (s.pos + 8) s.data))) := by
    have h2 := regionOf_writeAt_self s.data (s.pos + 8)
      (normN (length - 8).toNat
        (env.rc4_decrypt (List.take (length - 8).toNat (List.drop (s.pos + 8) s.data))))
    simp only [normN_length, regionOf] at h2
    exact h2
  rw [hreg]
  refine ⟨by simp, by simp, ?_⟩
  exact decide_eq_true_iff

/-- Witness for C2: a legacy frame whose wire MAC (all zeroes)
disagrees with the computed MAC (all ones): decrypt still returns
success and only raises the warning flag. -/
theorem c2_legacy_mac_mismatch_nonfatal_witness :
    (rdpRdp.mk (rdpSettings.mk false true 2 0 0 0) 0 false false false 1007 0 0).settings.encryption_method
        ≠ ENCRYPTION_METHOD_FIPS ∧
    (rdp_decrypt
      (ExtOracle.mk (fun _ => none) (fun _ _ => false) id id id (fun _ => [])
        (fun _ => List.replicate 8 1) (fun _ _ => List.replicate 8 1) (fun _ _ _ => none)
        (SDFields.mk 0 0 0 0 0) true true true)
      (rdpRdp.mk (rdpSettings.mk false true 2 0 0 0) 0 false false false 1007 0 0)
      (STREAM.mk (List.replicate 20 0) 0 20) 20 0).1 = true ∧
    (rdp_decrypt
      (ExtOracle.mk (fun _ => none) (fun _ _ => false) id id id (fun _ => [])
        (fun _ => List.replicate 8 1) (fun _ _ => List.replicate 8 1) (fun _ _ _ => none)
        (SDFields.mk 0 0 0 0 0) true true true)
      (rdpRdp.mk (rdpSettings.mk false true 2 0 0 0) 0 false false false 1007 0 0)
      (STREAM.mk (List.replicate 20 0) 0 20) 20 0).2.2 = true := by
  have h := c2_legacy_mac_mismatch_nonfatal
    (ExtOracle.mk (fun _ => none) (fun _ _ => false) id id id (fun _ => [])
      (fun _ => List.replicate 8 1) (fun _ _ => List.replicate 8 1) (fun _ _ _ => none)
      (SDFields.mk 0 0 0 0 0) true true true)
    (rdpRdp.mk (rdpSettings.mk false true 2 0 0 0) 0 false false false 1007 0 0)
    (STREAM.mk (List.replicate 20 0) 0 20) 20 0 (by decide)
  exact ⟨by decide, h.1, h.2.2.mpr (by decide)⟩

/-! ## C1 (amended): FIPS crypto failure hard-fails rdp_decrypt and the
TPKT receive; the fast-path receive discards the decrypt result -/

@[simp] theorem byteAt_drop_zero (l : List Nat) (m : Nat) :
    byteAt (l.drop m) 0 = byteAt l m := by
  rw [byteAt_drop, Nat.add_zero]

/-- C1 as amended: in FIPS mode a 3DES decryption failure (first
conjunct) or an HMAC-SHA1 signature verification failure over
plaintext[0 .. len − pad] (second conjunct) makes `rdp_decrypt` return
failure, and a failing `rdp_decrypt` makes the enclosing
`rdp_recv_tpkt_pdu` return failure for that PDU (third conjunct).  The
fast-path receive is exempt: `rdp_recv_fastpath_pdu` discards the
result of `rdp_decrypt` (see the counterexample). -/
theorem c1_fips_failure_hard_fail_amended :
    (∀ (env : ExtOracle) (rdp : rdpRdp) (s : STREAM) (length : Int) (flags : Nat),
      rdp.settings.encryption_method = ENCRYPTION_METHOD_FIPS →
      env.fips_decrypt (regionOf s.data (s.pos + 12) (length - 12).toNat) = none →
      (rdp_decrypt env rdp s length flags).1 = false) ∧
    (∀ (env : ExtOracle) (rdp : rdpRdp) (s : STREAM) (length : Int) (flags : Nat)
        (pt : List Nat),
      rdp.settings.encryption_method = ENCRYPTION_METHOD_FIPS →
      env.fips_decrypt (regionOf s.data (s.pos + 12) (length - 12).toNat) = some pt →
      env.fips_sig_ok
        (regionOf (writeAt s.data (s.pos + 12) (normN (length - 12).toNat pt))
          (s.pos + 12) (length - 12 - (byteAt s.data (s.pos + 3) : Int)).toNat)
        (regionOf s.data (s.pos + 4) 8) = false →
      (rdp_decrypt env rdp s length flags).1 = false) ∧
    (∀ (env : ExtOracle) (rdp : rdpRdp) (s : STREAM) (fuel length channelId : Nat)
        (rdp1 : rdpRdp) (s1 : STREAM),
      rdp_read_header rdp s = some (length, channelId, rdp1, s1) →
      rdp1.disconnect = false →
      rdp1.settings.encryption = true →
      (rdp_read_security_header s1).1 &&& (SEC_ENCRYPT ||| SEC_REDIRECTION_PKT) ≠ 0 →
      (rdp_decrypt env rdp1 (rdp_read_security_header s1).2 ((length : Int) - 4)
        (rdp_read_security_header s1).1).1 = false →
      (rdp_recv_tpkt_pdu env rdp s fuel).1 = false) := by
  refine ⟨?_, ?_, ?_⟩
  · intro env rdp s length flags hm hd
    rw [rdp_decrypt, if_pos hm]
    simp only [stream_read_uint16, stream_read_uint8, stream_seek_seek, suffixAt_seek,
      regionOf, suffixAt, List.drop_drop, stream_seek_data, stream_seek_pos] at hd ⊢
    norm_num at hd ⊢
    rw [hd]
  · intro env rdp s length flags pt hm hd hsig
    rw [rdp_decrypt, if_pos hm]
    simp only [stream_read_uint16, stream_read_uint8, stream_seek_seek, suffixAt_seek,
      regionOf, suffixAt, List.drop_drop, stream_seek_data, stream_seek_pos, spliceAt,
      byteAt_drop_zero] at hd hsig ⊢
    norm_num at hd hsig ⊢
    rw [hd]
    simp [hsig]
  · intro env rdp s fuel length channelId rdp1 s1 hread hdis henc hflag hdec
    rw [rdp_recv_tpkt_pdu, hread]
    simp only [hdis, henc, Bool.false_eq_true, if_false, if_true]
    rw [if_pos hflag]
    simp only [hdec, if_true]

/-- Counterexample for C1 as stated: a concrete fast-path FIPS frame
whose 3DES decryption fails (the decrypt oracle rejects it, so
`rdp_decrypt` returns failure on exactly the call the fast-path makes)
while `rdp_recv_fastpath_pdu` nevertheless returns success, because
rdp.c discards the result of `rdp_decrypt` on the fast path. -/
theorem c1_fastpath_counterexample :
    (rdp_decrypt
      (ExtOracle.mk (fun _ => none) (fun _ _ => false) id id id (fun _ => [])
        (fun _ => []) (fun _ _ => []) (fun _ _ _ => none) (SDFields.mk 0 0 0 0 0)
        true true true)
      (rdpRdp.mk (rdpSettings.mk false true 0x10 0 0 0) 0 false false false 1007 0 2)
      (STREAM.mk [0x80, 22, 0x10, 0, 1, 0, 0, 0, 0, 0, 0, 0, 0, 0, 0, 0, 0, 0, 0, 0, 0, 0] 2 22)
      20 0).1 = false ∧
    (rdp_recv_fastpath_pdu
      (ExtOracle.mk (fun _ => none) (fun _ _ => false) id id id (fun _ => [])
        (fun _ => []) (fun _ _ => []) (fun _ _ _ => none) (SDFields.mk 0 0 0 0 0)
        true true true)
      (rdpRdp.mk (rdpSettings.mk false true 0x10 0 0 0) 0 false false false 1007 0 0)
      (STREAM.mk [0x80, 22, 0x10, 0, 1, 0, 0, 0, 0, 0, 0, 0, 0, 0, 0, 0, 0, 0, 0, 0, 0, 0] 0 22)).1
      = true := by
  refine ⟨by decide, by decide⟩

/-- Witness for the amended C1 on a concrete TPKT FIPS frame whose
decryption fails: the TPKT receive returns failure. -/
theorem c1_fips_failure_hard_fail_amended_witness :
    (rdp_recv_tpkt_pdu
      (ExtOracle.mk (fun _ => none) (fun _ _ => false) id id id (fun _ => [])
        (fun _ => []) (fun _ _ => []) (fun _ _ _ => none) (SDFields.mk 0 0 0 0 0)
        true true true)
      (rdpRdp.mk (rdpSettings.mk false true 0x10 0 0 0) 0 false false false 1007 0 0)
      (STREAM.mk [3, 0, 0, 39, 2, 0xF0, 0x80, 104, 0, 6, 3, 235, 0x70, 0x80, 24,
        8, 0, 0, 0, 0x10, 0, 1, 0, 0, 0, 0, 0, 0, 0, 0, 0, 0, 0, 0, 0, 0, 0, 0, 0] 0 39)
      1).1 = false := by
  exact c1_fips_failure_hard_fail_amended.2.2
    (ExtOracle.mk (fun _ => none) (fun _ _ => false) id id id (fun _ => [])
      (fun _ => []) (fun _ _ => []) (fun _ _ _ => none) (SDFields.mk 0 0 0 0 0)
      true true true)
    (rdpRdp.mk (rdpSettings.mk false true 0x10 0 0 0) 0 false false false 1007 0 0)
    (STREAM.mk [3, 0, 0, 39, 2, 0xF0, 0x80, 104, 0, 6, 3, 235, 0x70, 0x80, 24,
      8, 0, 0, 0, 0x10, 0, 1, 0, 0, 0, 0, 0, 0, 0, 0, 0, 0, 0, 0, 0, 0, 0, 0, 0] 0 39)
    1 24 1003
    (rdpRdp.mk (rdpSettings.mk false true 0x10 0 0 0) 0 false false false 1007 0 0)
    (STREAM.mk [3, 0, 0, 39, 2, 0xF0, 0x80, 104, 0, 6, 3, 235, 0x70, 0x80, 24,
      8, 0, 0, 0, 0x10, 0, 1, 0, 0, 0, 0, 0, 0, 0, 0, 0, 0, 0, 0, 0, 0, 0, 0, 0] 15 39)
    (by decide) (by decide) (by decide) (by decide) (by decide)

/-! ## C8: DisconnectProviderUltimatum sets the latch and aborts the receive -/

/-- C8: for every MCS frame whose header discriminates
DisconnectProviderUltimatum with a readable PER enumerated reason (the
byte after the header, at most the enumeration count 0),
`rdp_read_header` returns success, sets the session's disconnect latch
and reports channel_id = MCS_GLOBAL_CHANNEL_ID (1003); the enclosing
`rdp_recv_tpkt_pdu` then observes the latch and returns failure
having consumed only the reason byte — the frame body is not read and
nothing is dispatched. -/
theorem c8_disconnect_ultimatum (rdp : rdpRdp) (s : STREAM) (length : Nat) (s1 : STREAM)
    (hm : mcs_read_domain_mcspdu_header
      (if rdp.settings.server_mode then DomainMCSPDU_SendDataRequest
        else DomainMCSPDU_SendDataIndication) s
      = some (DomainMCSPDU_DisconnectProviderUltimatum, length, s1))
    (hlen : ¬ ((length : Int) - 8 > stream_get_left s1))
    (hreason : byteAt s1.data s1.pos = 0) :
    rdp_read_header rdp s =
      some (length, MCS_GLOBAL_CHANNEL_ID, { rdp with disconnect := true }, stream_seek s1 1) ∧
    ∀ (env : ExtOracle) (fuel : Nat),
      rdp_recv_tpkt_pdu env rdp s fuel =
        (false, { rdp with disconnect := true }, stream_seek s1 1, []) := by
  have hread : rdp_read_header rdp s =
      some (length, MCS_GLOBAL_CHANNEL_ID, { rdp with disconnect := true }, stream_seek s1 1) := by
    rw [rdp_read_header, hm]
    simp only [if_neg hlen]
    rw [if_pos trivial, per_read_enumerated]
    simp only [stream_read_uint8, suffixAt, byteAt_drop_zero, hreason]
    norm_num
  refine ⟨hread, fun env fuel => ?_⟩
  rw [rdp_recv_tpkt_pdu, hread]
  simp

/-- Witness for C8: a concrete 10-byte ultimatum frame with reason 0
and one (unread) trailing body byte. -/
theorem c8_disconnect_ultimatum_witness :
    rdp_recv_tpkt_pdu
      (ExtOracle.mk (fun _ => none) (fun _ _ => false) id id id (fun _ => [])
        (fun _ => []) (fun _ _ => []) (fun _ _ _ => none) (SDFields.mk 0 0 0 0 0)
        true true true)
      (rdpRdp.mk (rdpSettings.mk false false 0 0 0 0) 0 false false false 1007 0 0)
      (STREAM.mk [3, 0, 0, 10, 2, 0xF0, 0x80, 0x20, 0, 99] 0 10) 1
      = (false,
          rdpRdp.mk (rdpSettings.mk false false 0 0 0 0) 0 false false true 1007 0 0,
          STREAM.mk [3, 0, 0, 10, 2, 0xF0, 0x80, 0x20, 0, 99] 9 10, []) := by
  have h := c8_disconnect_ultimatum
    (rdpRdp.mk (rdpSettings.mk false false 0 0 0 0) 0 false false false 1007 0 0)
    (STREAM.mk [3, 0, 0, 10, 2, 0xF0, 0x80, 0x20, 0, 99] 0 10) 10
    (STREAM.mk [3, 0, 0, 10, 2, 0xF0, 0x80, 0x20, 0, 99] 8 10)
    (by decide) (by decide) (by decide)
  have h2 := h.2
    (ExtOracle.mk (fun _ => none) (fun _ _ => false) id id id (fun _ => [])
      (fun _ => []) (fun _ _ => []) (fun _ _ _ => none) (SDFields.mk 0 0 0 0 0)
      true true true) 1
  rw [h2]
  decide

/-! ## Emitted header byte lists (for the send-path theorems) -/

/-- The 15 bytes `rdp_write_header` emits (outside the FIPS pad
adjustment): TPKT, X.224 data TPDU, MCS choice, PER initiator and
channel, priority byte, forced two-byte user-data length. -/
def mcsHeaderBytes (rdp : rdpRdp) (length ch : Nat) : List Nat :=
  [3, 0] ++ u16be length ++ [2, 0xF0, 0x80]
    ++ u8b (((if rdp.settings.server_mode then DomainMCSPDU_SendDataIndication
        else DomainMCSPDU_SendDataRequest) <<< 2) ||| 0)
    ++ u16be (u16_of_int ((rdp.user_id : Int) - (MCS_BASE_CHANNEL_ID : Int)))
    ++ u16be (u16_of_int ((ch : Int) - 0))
    ++ u8b 0x70
    ++ u16be (u16_of_int ((length : Int) - (RDP_PACKET_HEADER_MAX_LENGTH : Int)) ||| 0x8000)

/-- The 6 bytes `rdp_write_share_control_header` emits. -/
def shareControlBytes (length ty ch : Nat) : List Nat :=
  u16le (u16_of_int ((length : Int) - (RDP_PACKET_HEADER_MAX_LENGTH : Int)))
    ++ u16le (ty ||| 0x10) ++ u16le ch

/-- The 12 bytes `rdp_write_share_data_header` emits. -/
def shareDataBytes (length ty sid : Nat) : List Nat :=
  u32le sid ++ u8b 0 ++ u8b STREAM_LOW
    ++ u16le (u16_of_int ((length : Int) - (RDP_PACKET_HEADER_MAX_LENGTH : Int)
        - (RDP_SHARE_CONTROL_HEADER_LENGTH : Int) - (RDP_SHARE_DATA_HEADER_LENGTH : Int)))
    ++ u8b ty ++ u8b 0 ++ u16le 0

@[simp] theorem mcsHeaderBytes_length (rdp : rdpRdp) (length ch : Nat) :
    (mcsHeaderBytes rdp length ch).length = 15 := by
  simp [mcsHeaderBytes]

@[simp] theorem shareControlBytes_length (length ty ch : Nat) :
    (shareControlBytes length ty ch).length = 6 := by
  simp [shareControlBytes]

@[simp] theorem shareDataBytes_length (length ty sid : Nat) :
    (shareDataBytes length ty sid).length = 12 := by
  simp [shareDataBytes]

theorem rdp_write_header_no_fips (rdp : rdpRdp) (s : STREAM) (length ch : Nat)
    (h : ¬(rdp.sec_flags &&& SEC_ENCRYPT ≠ 0
      ∧ rdp.settings.encryption_method = ENCRYPTION_METHOD_FIPS)) :
    rdp_write_header rdp s length ch = stream_write_bytes s (mcsHeaderBytes rdp length ch) := by
  rw [rdp_write_header, if_neg h]
  simp only [mcs_write_domain_mcspdu_header, per_write_integer16, stream_write_uint8,
    stream_write_uint16_be, stream_write_bytes_bytes, mcsHeaderBytes]
  norm_num [u8b]

theorem rdp_write_share_control_header_eq (s : STREAM) (length ty ch : Nat) :
    rdp_write_share_control_header s length ty ch
      = stream_write_bytes s (shareControlBytes length ty ch) := by
  simp only [rdp_write_share_control_header, stream_write_uint16, stream_write_bytes_bytes,
    shareControlBytes]

theorem rdp_write_share_data_header_eq (s : STREAM) (length ty sid : Nat) :
    rdp_write_share_data_header s length ty sid
      = stream_write_bytes s (shareDataBytes length ty sid) := by
  simp only [rdp_write_share_data_header, stream_write_uint32, stream_write_uint8,
    stream_write_uint16, stream_write_bytes_bytes, shareDataBytes]

theorem rdp_send_data_pdu_no_crypt (env : ExtOracle) (rdp : rdpRdp) (d : List Nat)
    (L sz tyd ch : Nat) (hsf : rdp.sec_flags = 0) :
    rdp_send_data_pdu env rdp (STREAM.mk d L sz) tyd ch =
      (env.transport_ok, rdp,
        STREAM.mk (writeAt d 0 (mcsHeaderBytes rdp L MCS_GLOBAL_CHANNEL_ID
          ++ shareControlBytes L PDU_TYPE_DATA ch
          ++ shareDataBytes L tyd rdp.settings.share_id)) L sz) := by
  have hno : ¬(rdp.sec_flags &&& SEC_ENCRYPT ≠ 0
      ∧ rdp.settings.encryption_method = ENCRYPTION_METHOD_FIPS) := by
    simp [hsf]
  have hsec : rdp_get_sec_bytes rdp = 0 := by
    rw [rdp_get_sec_bytes]
    simp [hsf]
  rw [rdp_send_data_pdu]
  simp only [stream_get_length, stream_set_pos, hsec, Nat.sub_zero,
    rdp_write_header_no_fips rdp _ L MCS_GLOBAL_CHANNEL_ID hno,
    rdp_write_share_control_header_eq, rdp_write_share_data_header_eq,
    stream_write_bytes_bytes, stream_seek]
  rw [rdp_security_stream_out]
  simp only [hsf, ne_eq, not_true_eq_false, if_false, ite_false]
  simp only [stream_write_bytes, stream_set_pos, Nat.add_zero]
  have hww := writeAt_writeAt d 0 (mcsHeaderBytes rdp L MCS_GLOBAL_CHANNEL_ID)
    (shareControlBytes L PDU_TYPE_DATA ch ++ shareDataBytes L tyd rdp.settings.share_id)
  rw [mcsHeaderBytes_length, Nat.zero_add] at hww
  by_cases htr : env.transport_ok <;> simp [htr, hww]

theorem rdp_send_pdu_no_crypt (env : ExtOracle) (rdp : rdpRdp) (d : List Nat)
    (L sz ty ch : Nat) (hsf : rdp.sec_flags = 0) :
    rdp_send_pdu env rdp (STREAM.mk d L sz) ty ch =
      (env.transport_ok, rdp,
        STREAM.mk (writeAt d 0 (mcsHeaderBytes rdp L MCS_GLOBAL_CHANNEL_ID
          ++ shareControlBytes L ty ch)) L sz) := by
  have hno : ¬(rdp.sec_flags &&& SEC_ENCRYPT ≠ 0
      ∧ rdp.settings.encryption_method = ENCRYPTION_METHOD_FIPS) := by
    simp [hsf]
  have hsec : rdp_get_sec_bytes rdp = 0 := by
    rw [rdp_get_sec_bytes]
    simp [hsf]
  rw [rdp_send_pdu]
  simp only [stream_get_length, stream_set_pos, hsec, Nat.sub_zero,
    rdp_write_header_no_fips rdp _ L MCS_GLOBAL_CHANNEL_ID hno,
    rdp_write_share_control_header_eq, stream_write_bytes_bytes, stream_seek]
  rw [rdp_security_stream_out]
  simp only [hsf, ne_eq, not_true_eq_false, if_false, ite_false]
  simp only [stream_write_bytes, stream_set_pos, Nat.add_zero]
  have hww := writeAt_writeAt d 0 (mcsHeaderBytes rdp L MCS_GLOBAL_CHANNEL_ID)
    (shareControlBytes L ty ch)
  rw [mcsHeaderBytes_length, Nat.zero_add] at hww
  by_cases htr : env.transport_ok <;> simp [htr, hww]

/-! ## C10: rdp_send_frame_ack -/

/-- C10: `rdp_send_frame_ack` is a no-op returning 0 when
`settings->frame_acknowledge` is 0 — nothing is built or sent and the
session state is unchanged; otherwise (shown here for the plain,
no-staged-crypto session state in which the client sends frame acks)
it builds and sends a single 37-byte Data PDU whose Share Data type is
56, whose Share Control pduSource is the session's user_id, and whose
body is the 32-bit frame value, returning 0 again.  The final conjunct
exposes the emitted frame bytes: MCS header, Share Control header
(type DATA, source user_id), Share Data header (type 56), then the
little-endian frame value. -/
theorem c10_send_frame_ack (env : ExtOracle) (rdp : rdpRdp) (frame : Nat) :
    (rdp.settings.frame_acknowledge = 0 → rdp_send_frame_ack env rdp frame = (0, rdp, none)) ∧
    (rdp.settings.frame_acknowledge ≠ 0 → rdp.do_crypt = false → rdp.sec_flags = 0 →
      rdp_send_frame_ack env rdp frame =
        (0, rdp, some (STREAM.mk (writeAt (writeAt (List.replicate 2048 0) 33 (u32le frame)) 0
          (mcsHeaderBytes rdp 37 MCS_GLOBAL_CHANNEL_ID
            ++ shareControlBytes 37 PDU_TYPE_DATA rdp.user_id
            ++ shareDataBytes 37 56 rdp.settings.share_id)) 37 2048)) ∧
      (writeAt (writeAt (List.replicate 2048 0) 33 (u32le frame)) 0
          (mcsHeaderBytes rdp 37 MCS_GLOBAL_CHANNEL_ID
            ++ shareControlBytes 37 PDU_TYPE_DATA rdp.user_id
            ++ shareDataBytes 37 56 rdp.settings.share_id)).take 37
        = mcsHeaderBytes rdp 37 MCS_GLOBAL_CHANNEL_ID
            ++ shareControlBytes 37 PDU_TYPE_DATA rdp.user_id
            ++ shareDataBytes 37 56 rdp.settings.share_id ++ u32le frame) := by
  constructor
  · intro h0
    rw [rdp_send_frame_ack, if_pos h0]
  · intro hfa hcrypt hsf
    have hinit : rdp_data_pdu_init rdp = (rdp, STREAM.mk (List.replicate 2048 0) 33 2048) := by
      rw [rdp_data_pdu_init, rdp_security_stream_init, hcrypt]
      simp only [Bool.false_eq_true, if_false, hsf, ne_eq, not_true_eq_false]
      norm_num [transport_send_stream_init, stream_seek, RDP_PACKET_HEADER_MAX_LENGTH,
        RDP_SHARE_CONTROL_HEADER_LENGTH, RDP_SHARE_DATA_HEADER_LENGTH]
    have hw : stream_write_uint32 (STREAM.mk (List.replicate 2048 0) 33 2048) frame
        = STREAM.mk (writeAt (List.replicate 2048 0) 33 (u32le frame)) 37 2048 := rfl
    have hsend := rdp_send_data_pdu_no_crypt env rdp
      (writeAt (List.replicate 2048 0) 33 (u32le frame)) 37 2048 56 rdp.user_id hsf
    have htake : (writeAt (writeAt (List.replicate 2048 0) 33 (u32le frame)) 0
        (mcsHeaderBytes rdp 37 MCS_GLOBAL_CHANNEL_ID
          ++ shareControlBytes 37 PDU_TYPE_DATA rdp.user_id
          ++ shareDataBytes 37 56 rdp.settings.share_id)).take 37
        = mcsHeaderBytes rdp 37 MCS_GLOBAL_CHANNEL_ID
            ++ shareControlBytes 37 PDU_TYPE_DATA rdp.user_id
            ++ shareDataBytes 37 56 rdp.settings.share_id ++ u32le frame := by
      have hd : (writeAt (List.replicate 2048 0) 33 (u32le frame)).drop
          ((mcsHeaderBytes rdp 37 MCS_GLOBAL_CHANNEL_ID
            ++ shareControlBytes 37 PDU_TYPE_DATA rdp.user_id
            ++ shareDataBytes 37 56 rdp.settings.share_id).length)
          = u32le frame ++ (List.replicate 2048 0).drop 37 := by
        simp only [List.length_append, mcsHeaderBytes_length, shareControlBytes_length,
          shareDataBytes_length]
        have := drop_writeAt_self (List.replicate 2048 0) 33 (u32le frame)
        norm_num at this ⊢
        exact this
      rw [writeAt_zero, hd, ← List.append_assoc]
      rw [List.take_left' (by simp)]
    refine ⟨?_, htake⟩
    rw [rdp_send_frame_ack, if_neg hfa]
    simp only [hinit, hw, hsend]

/-- Witness for C10: the no-op case (frame_acknowledge = 0) and the
sending case with user_id 1007, share_id 0xDEADBEEF and frame 0xABCD;
the 37 emitted bytes are spelled out. -/
theorem optionMapTake37 (W : List Nat) (p z : Nat) :
    (some (STREAM.mk W p z)).map (fun t => t.data.take 37) = some (W.take 37) := rfl

theorem c10_send_frame_ack_witness :
    rdp_send_frame_ack
      (ExtOracle.mk (fun _ => none) (fun _ _ => false) id id id (fun _ => [])
        (fun _ => []) (fun _ _ => []) (fun _ _ _ => none) (SDFields.mk 0 0 0 0 0)
        true true true)
      (rdpRdp.mk (rdpSettings.mk false false 0 3735928559 0 0) 0 false false false 1007 0 0) 7
      = (0, rdpRdp.mk (rdpSettings.mk false false 0 3735928559 0 0) 0 false false false 1007 0 0,
          none) ∧
    (rdp_send_frame_ack
      (ExtOracle.mk (fun _ => none) (fun _ _ => false) id id id (fun _ => [])
        (fun _ => []) (fun _ _ => []) (fun _ _ _ => none) (SDFields.mk 0 0 0 0 0)
        true true true)
      (rdpRdp.mk (rdpSettings.mk false false 0 3735928559 0 1) 0 false false false 1007 0 0)
      43981).1 = 0 ∧
    ((rdp_send_frame_ack
      (ExtOracle.mk (fun _ => none) (fun _ _ => false) id id id (fun _ => [])
        (fun _ => []) (fun _ _ => []) (fun _ _ _ => none) (SDFields.mk 0 0 0 0 0)
        true true true)
      (rdpRdp.mk (rdpSettings.mk false false 0 3735928559 0 1) 0 false false false 1007 0 0)
      43981).2.2.map (fun t => t.data.take 37))
      = some [3, 0, 0, 37, 2, 240, 128, 100, 0, 6, 3, 235, 112, 128, 22,
          22, 0, 23, 0, 239, 3,
          239, 190, 173, 222, 0, 1, 4, 0, 56, 0, 0, 0,
          205, 171, 0, 0] := by
  have h1 := (c10_send_frame_ack
    (ExtOracle.mk (fun _ => none) (fun _ _ => false) id id id (fun _ => [])
      (fun _ => []) (fun _ _ => []) (fun _ _ _ => none) (SDFields.mk 0 0 0 0 0)
      true true true)
    (rdpRdp.mk (rdpSettings.mk false false 0 3735928559 0 0) 0 false false false 1007 0 0)
    7).1 (by decide)
  have h2 := (c10_send_frame_ack
    (ExtOracle.mk (fun _ => none) (fun _ _ => false) id id id (fun _ => [])
      (fun _ => []) (fun _ _ => []) (fun _ _ _ => none) (SDFields.mk 0 0 0 0 0)
      true true true)
    (rdpRdp.mk (rdpSettings.mk false false 0 3735928559 0 1) 0 false false false 1007 0 0)
    43981).2 (by decide) (by decide) (by decide)
  refine ⟨h1, by rw [h2.1], ?_⟩
  rw [h2.1, optionMapTake37, h2.2]
  decide

/-! ## C4: rdp_send_pdu / rdp_read_header / rdp_read_share_control_header
round-trip -/

/-- The frame `rdp_send_pdu` emits when no security flags are staged:
MCS header on the global channel, Share Control header carrying the
type and the channel (as pduSource), then the caller's body. -/
def sentPduFrame (rdpW : rdpRdp) (body : List Nat) (ty ch : Nat) : List Nat :=
  mcsHeaderBytes rdpW (21 + body.length) MCS_GLOBAL_CHANNEL_ID
    ++ shareControlBytes (21 + body.length) ty ch ++ body

@[simp] theorem sentPduFrame_length (rdpW : rdpRdp) (body : List Nat) (ty ch : Nat) :
    (sentPduFrame rdpW body ty ch).length = 21 + body.length := by
  simp [sentPduFrame]
  omega

theorem u16_of_int_of_lt (x : Int) (h0 : 0 ≤ x) (h : x < 65536) : u16_of_int x = x.toNat := by
  rw [u16_of_int]
  have hx : x.emod 65536 = x := Int.emod_eq_of_lt h0 h
  rw [hx]

theorem c4_emission (env : ExtOracle) (rdpW : rdpRdp) (body : List Nat) (ty ch : Nat)
    (hcrypt : rdpW.do_crypt = false) (hsf : rdpW.sec_flags = 0) :
    (rdp_send_pdu env (rdp_pdu_init rdpW).1
        (stream_write_bytes (rdp_pdu_init rdpW).2 body) ty ch).2.2.pos
      = 21 + body.length ∧
    (rdp_send_pdu env (rdp_pdu_init rdpW).1
        (stream_write_bytes (rdp_pdu_init rdpW).2 body) ty ch).2.2.data.take
        (21 + body.length)
      = sentPduFrame rdpW body ty ch := by
  have hinit : rdp_pdu_init rdpW = (rdpW, STREAM.mk (List.replicate 2048 0) 21 2048) := by
    rw [rdp_pdu_init, rdp_security_stream_init, hcrypt]
    simp only [Bool.false_eq_true, if_false, hsf, ne_eq, not_true_eq_false]
    norm_num [transport_send_stream_init, stream_seek, RDP_PACKET_HEADER_MAX_LENGTH,
      RDP_SHARE_CONTROL_HEADER_LENGTH]
  have hw : stream_write_bytes (STREAM.mk (List.replicate 2048 0) 21 2048) body
      = STREAM.mk (writeAt (List.replicate 2048 0) 21 body) (21 + body.length) 2048 := rfl
  have hsend := rdp_send_pdu_no_crypt env rdpW
    (writeAt (List.replicate 2048 0) 21 body) (21 + body.length) 2048 ty ch hsf
  have htake : (writeAt (writeAt (List.replicate 2048 0) 21 body) 0
      (mcsHeaderBytes rdpW (21 + body.length) MCS_GLOBAL_CHANNEL_ID
        ++ shareControlBytes (21 + body.length) ty ch)).take (21 + body.length)
      = sentPduFrame rdpW body ty ch := by
    have hd : (writeAt (List.replicate 2048 0) 21 body).drop
        ((mcsHeaderBytes rdpW (21 + body.length) MCS_GLOBAL_CHANNEL_ID
          ++ shareControlBytes (21 + body.length) ty ch).length)
        = body ++ (List.replicate 2048 0).drop (21 + body.length) := by
      simp only [List.length_append, mcsHeaderBytes_length, shareControlBytes_length]
      have := drop_writeAt_self (List.replicate 2048 0) 21 body
      norm_num at this ⊢
      exact this
    rw [writeAt_zero, hd, ← List.append_assoc]
    rw [List.take_left' (by simp; omega)]
    simp [sentPduFrame, List.append_assoc]
  refine ⟨?_, ?_⟩
  · rw [hinit]
    simp only [hw, hsend]
  · rw [hinit]
    simp only [hw, hsend]
    exact htake

theorem and_128_of_range (x : Nat) (h1 : 128 ≤ x) (h2 : x < 256) : x &&& 128 = 128 := by
  have hx := Nat.and_two_pow x 7
  have ht : x.testBit 7 = true := by
    have hdiv : x / 128 = 1 := by omega
    rw [Nat.testBit_to_div_mod]
    norm_num [hdiv]
  norm_num [ht] at hx
  norm_num [hx]

/-- C4: the frame `rdp_send_pdu(type, channel)` emits (built on
`rdp_pdu_init`, with the body written by the caller and no security
flags staged) decodes — by `rdp_read_header` on the peer side followed
by `rdp_read_share_control_header` — to the same type, the same
channel as pduSource, and the same body bytes.  The first conjunct
ties `sentPduFrame` to the send path; the rest decode it. -/
theorem c4_send_pdu_round_trip (env : ExtOracle) (rdpW rdpR : rdpRdp) (body : List Nat)
    (ty ch : Nat)
    (hcrypt : rdpW.do_crypt = false) (hsf : rdpW.sec_flags = 0)
    (hty : ty < 16) (hch : ch < 65536)
    (hcap : 21 + body.length ≤ 2048) (hsz : body.length + 27 < 32768)
    (hmode : rdpR.settings.server_mode = !rdpW.settings.server_mode) :
    ((rdp_send_pdu env (rdp_pdu_init rdpW).1
        (stream_write_bytes (rdp_pdu_init rdpW).2 body) ty ch).2.2.pos
      = 21 + body.length ∧
     (rdp_send_pdu env (rdp_pdu_init rdpW).1
        (stream_write_bytes (rdp_pdu_init rdpW).2 body) ty ch).2.2.data.take
        (21 + body.length)
      = sentPduFrame rdpW body ty ch) ∧
    rdp_read_header rdpR
        (STREAM.mk (sentPduFrame rdpW body ty ch) 0 (21 + body.length))
      = some (6 + body.length, MCS_GLOBAL_CHANNEL_ID, rdpR,
          STREAM.mk (sentPduFrame rdpW body ty ch) 15 (21 + body.length)) ∧
    rdp_read_share_control_header
        (STREAM.mk (sentPduFrame rdpW body ty ch) 15 (21 + body.length))
      = (true, 6 + body.length, ty, ch,
          STREAM.mk (sentPduFrame rdpW body ty ch) 21 (21 + body.length)) ∧
    (sentPduFrame rdpW body ty ch).drop 21 = body := by
  have hB : body.length + 27 < 32768 := hsz
  have hj : u16_of_int ((MCS_GLOBAL_CHANNEL_ID : Int) - 0) = 1003 := by
    rw [MCS_GLOBAL_CHANNEL_ID, u16_of_int_of_lt] <;> decide
  have hv : u16_of_int (((21 + body.length : Nat) : Int)
      - (RDP_PACKET_HEADER_MAX_LENGTH : Int)) = 6 + body.length := by
    rw [RDP_PACKET_HEADER_MAX_LENGTH, u16_of_int_of_lt]
    · push_cast
      omega
    · push_cast
      omega
    · push_cast
      omega
  have hpl : u16_of_int (((21 + body.length : Nat) : Int)
      - (RDP_PACKET_HEADER_MAX_LENGTH : Int)) ||| 0x8000
      = 32768 + (6 + body.length) := by
    rw [hv]
    exact lor_0x8000_eq (6 + body.length) (by omega)
  have hF : sentPduFrame rdpW body ty ch =
      3 :: 0 :: ((21 + body.length) / 256 % 256) :: ((21 + body.length) % 256) ::
      2 :: 240 :: 128 ::
      ((((if rdpW.settings.server_mode then 26 else 25) <<< 2) ||| 0) % 256) ::
      (u16_of_int ((rdpW.user_id : Int) - 1001) / 256 % 256) ::
      (u16_of_int ((rdpW.user_id : Int) - 1001) % 256) ::
      3 :: 235 :: 112 ::
      ((32768 + (6 + body.length)) / 256 % 256) :: ((32768 + (6 + body.length)) % 256) ::
      ((6 + body.length) % 256) :: ((6 + body.length) / 256 % 256) ::
      ((ty ||| 16) % 256) :: ((ty ||| 16) / 256 % 256) ::
      (ch % 256) :: (ch / 256 % 256) :: body := by
    rw [sentPduFrame, mcsHeaderBytes, shareControlBytes, hj, hpl, hv]
    simp [u16be, u16le, u8b, MCS_BASE_CHANNEL_ID, DomainMCSPDU_SendDataIndication,
      DomainMCSPDU_SendDataRequest]
  obtain ⟨hEp, hEt⟩ := c4_emission env rdpW body ty ch hcrypt hsf
  have hchoice : ((((if rdpW.settings.server_mode then 26 else 25) <<< 2) ||| 0) % 256) >>> 2
      = (if rdpW.settings.server_mode then 26 else 25) := by
    cases rdpW.settings.server_mode <;> decide
  have hexp : (if rdpR.settings.server_mode = true then DomainMCSPDU_SendDataRequest
      else DomainMCSPDU_SendDataIndication)
      = (if rdpW.settings.server_mode then 26 else 25) := by
    rw [hmode]
    cases rdpW.settings.server_mode <;> decide
  have hmcs : mcs_read_domain_mcspdu_header
      (if rdpR.settings.server_mode = true then DomainMCSPDU_SendDataRequest
        else DomainMCSPDU_SendDataIndication)
      (STREAM.mk (sentPduFrame rdpW body ty ch) 0 (21 + body.length))
      = some ((if rdpW.settings.server_mode then 26 else 25), 21 + body.length,
          STREAM.mk (sentPduFrame rdpW body ty ch) 8 (21 + body.length)) := by
    rw [mcs_read_domain_mcspdu_header, hexp]
    simp only [stream_read_uint8, stream_read_uint16_be, stream_seek, suffixAt, hF]
    norm_num [decodeU16be, hchoice]
    constructor
    · cases rdpW.settings.server_mode <;> decide
    · omega
  have hhi : (32768 + (6 + body.length)) / 256 % 256 = 128 + (6 + body.length) / 256 := by
    omega
  have hlo : (32768 + (6 + body.length)) % 256 = (6 + body.length) % 256 := by omega
  have hand : (128 + (6 + body.length) / 256) &&& 128 = 128 :=
    and_128_of_range _ (by omega) (by omega)
  have hand7 : (128 + (6 + body.length) / 256) &&& 127 = (6 + body.length) / 256 := by
    rw [and_127_eq_mod]
    omega
  have hsh : (((6 + body.length) / 256) <<< 8) ||| ((6 + body.length) % 256)
      = 6 + body.length := by
    rw [shiftLeft8_lor_eq _ _ (by omega)]
    omega
  have hread : rdp_read_header rdpR
      (STREAM.mk (sentPduFrame rdpW body ty ch) 0 (21 + body.length))
      = some (6 + body.length, MCS_GLOBAL_CHANNEL_ID, rdpR,
          STREAM.mk (sentPduFrame rdpW body ty ch) 15 (21 + body.length)) := by
    rw [rdp_read_header, hmcs]
    simp only [per_read_integer16, per_read_length, stream_read_uint16_be, stream_read_uint8,
      stream_seek, suffixAt, hF, stream_get_left]
    norm_num [decodeU16be, hhi, hlo, hand, hand7, hsh]
    rw [if_neg (by cases rdpW.settings.server_mode <;> decide)]
    rw [if_neg (by omega)]
    rw [if_neg (by omega)]
    rfl
  have hty16 : (ty ||| 16) % 256 + 256 * ((ty ||| 16) / 256 % 256) = ty + 16 := by
    rw [lor_16_eq ty hty]
    omega
  have hmask : (ty + 16) &&& 15 = ty := by
    rw [and_15_eq_mod]
    omega
  have hctrl : rdp_read_share_control_header
      (STREAM.mk (sentPduFrame rdpW body ty ch) 15 (21 + body.length))
      = (true, 6 + body.length, ty, ch,
          STREAM.mk (sentPduFrame rdpW body ty ch) 21 (21 + body.length)) := by
    rw [rdp_read_share_control_header]
    simp only [stream_read_uint16, stream_seek, suffixAt, hF, stream_get_left]
    norm_num [decodeU16le]
    rw [if_neg (by omega)]
    rw [if_pos (by omega)]
    norm_num [hty16, hmask]
    exact ⟨by omega, by omega⟩
  have hdrop : (sentPduFrame rdpW body ty ch).drop 21 = body := by
    rw [hF]
    rfl
  exact ⟨⟨hEp, hEt⟩, hread, hctrl, hdrop⟩

/-- Witness for C4: a client session sends a 16-byte body as PDU type 7
on channel 1007; the server-side reader decodes the same type, channel
and body. -/
theorem c4_send_pdu_round_trip_witness :
    ((rdp_send_pdu
        (ExtOracle.mk (fun _ => none) (fun _ _ => false) id id id (fun _ => [])
          (fun _ => []) (fun _ _ => []) (fun _ _ _ => none) (SDFields.mk 0 0 0 0 0)
          true true true)
        (rdp_pdu_init (rdpRdp.mk (rdpSettings.mk false false 0 0 0 0) 0 false false false
          1007 0 0)).1
        (stream_write_bytes (rdp_pdu_init (rdpRdp.mk (rdpSettings.mk false false 0 0 0 0)
          0 false false false 1007 0 0)).2
          [0, 1, 2, 3, 4, 5, 6, 7, 8, 9, 10, 11, 12, 13, 14, 15]) 7 1007).2.2.pos = 37 ∧
     (rdp_send_pdu
        (ExtOracle.mk (fun _ => none) (fun _ _ => false) id id id (fun _ => [])
          (fun _ => []) (fun _ _ => []) (fun _ _ _ => none) (SDFields.mk 0 0 0 0 0)
          true true true)
        (rdp_pdu_init (rdpRdp.mk (rdpSettings.mk false false 0 0 0 0) 0 false false false
          1007 0 0)).1
        (stream_write_bytes (rdp_pdu_init (rdpRdp.mk (rdpSettings.mk false false 0 0 0 0)
          0 false false false 1007 0 0)).2
          [0, 1, 2, 3, 4, 5, 6, 7, 8, 9, 10, 11, 12, 13, 14, 15]) 7 1007).2.2.data.take 37
      = sentPduFrame (rdpRdp.mk (rdpSettings.mk false false 0 0 0 0) 0 false false false
          1007 0 0) [0, 1, 2, 3, 4, 5, 6, 7, 8, 9, 10, 11, 12, 13, 14, 15] 7 1007) ∧
    rdp_read_header (rdpRdp.mk (rdpSettings.mk true false 0 0 0 0) 0 false false false 1002 0 0)
        (STREAM.mk (sentPduFrame (rdpRdp.mk (rdpSettings.mk false false 0 0 0 0) 0 false false
          false 1007 0 0) [0, 1, 2, 3, 4, 5, 6, 7, 8, 9, 10, 11, 12, 13, 14, 15] 7 1007) 0 37)
      = some (22, MCS_GLOBAL_CHANNEL_ID,
          rdpRdp.mk (rdpSettings.mk true false 0 0 0 0) 0 false false false 1002 0 0,
          STREAM.mk (sentPduFrame (rdpRdp.mk (rdpSettings.mk false false 0 0 0 0) 0 false false
            false 1007 0 0) [0, 1, 2, 3, 4, 5, 6, 7, 8, 9, 10, 11, 12, 13, 14, 15] 7 1007) 15 37) ∧
    rdp_read_share_control_header
        (STREAM.mk (sentPduFrame (rdpRdp.mk (rdpSettings.mk false false 0 0 0 0) 0 false false
          false 1007 0 0) [0, 1, 2, 3, 4, 5, 6, 7, 8, 9, 10, 11, 12, 13, 14, 15] 7 1007) 15 37)
      = (true, 22, 7, 1007,
          STREAM.mk (sentPduFrame (rdpRdp.mk (rdpSettings.mk false false 0 0 0 0) 0 false false
            false 1007 0 0) [0, 1, 2, 3, 4, 5, 6, 7, 8, 9, 10, 11, 12, 13, 14, 15] 7 1007) 21 37) ∧
    (sentPduFrame (rdpRdp.mk (rdpSettings.mk false false 0 0 0 0) 0 false false false 1007 0 0)
        [0, 1, 2, 3, 4, 5, 6, 7, 8, 9, 10, 11, 12, 13, 14, 15] 7 1007).drop 21
      = [0, 1, 2, 3, 4, 5, 6, 7, 8, 9, 10, 11, 12, 13, 14, 15] := by
  have h := c4_send_pdu_round_trip
    (ExtOracle.mk (fun _ => none) (fun _ _ => false) id id id (fun _ => [])
      (fun _ => []) (fun _ _ => []) (fun _ _ _ => none) (SDFields.mk 0 0 0 0 0)
      true true true)
    (rdpRdp.mk (rdpSettings.mk false false 0 0 0 0) 0 false false false 1007 0 0)
    (rdpRdp.mk (rdpSettings.mk true false 0 0 0 0) 0 false false false 1002 0 0)
    [0, 1, 2, 3, 4, 5, 6, 7, 8, 9, 10, 11, 12, 13, 14, 15] 7 1007
    (by decide) (by decide) (by decide) (by decide) (by decide) (by decide) (by decide)
  exact h

/-! ## C5: FIPS pad arithmetic on the send path -/

theorem regionOf_add (xs : List Nat) (a n m : Nat) :
    regionOf xs a (n + m) = regionOf xs a n ++ regionOf xs (a + n) m := by
  rw [regionOf, regionOf, regionOf, List.take_add, List.drop_drop]

theorem rdp_write_header_fips_eq (rdp : rdpRdp) (s : STREAM) (length ch : Nat)
    (hf : rdp.sec_flags &&& SEC_ENCRYPT ≠ 0)
    (hm : rdp.settings.encryption_method = ENCRYPTION_METHOD_FIPS)
    (hlen : 31 ≤ length) :
    rdp_write_header rdp s length ch
      = stream_write_bytes s
          (mcsHeaderBytes rdp (length + ((8 - (length - 31) % 8) &&& 7)) ch) := by
  rw [rdp_write_header]
  rw [if_pos (show rdp.sec_flags &&& SEC_ENCRYPT ≠ 0
    ∧ rdp.settings.encryption_method = ENCRYPTION_METHOD_FIPS from ⟨hf, hm⟩)]
  have h1 : (length : Int) - (RDP_PACKET_HEADER_MAX_LENGTH : Int) - 16
      = ((length - 31 : Nat) : Int) := by
    rw [RDP_PACKET_HEADER_MAX_LENGTH]
    omega
  have htm : ((length : Int) - (RDP_PACKET_HEADER_MAX_LENGTH : Int) - 16).tmod 8
      = (((length - 31) % 8 : Nat) : Int) := by
    rw [h1, Int.tmod_eq_emod (by positivity) (by norm_num)]
    push_cast
    rfl
  simp only [htm]
  by_cases hmod : (length - 31) % 8 = 0
  · rw [if_neg (show ¬((8 : Int) - (((length - 31) % 8 : Nat) : Int) ≠ 8) from by
      push_cast
      omega)]
    have h87 : (8 - (length - 31) % 8) &&& 7 = 0 := by
      rw [hmod]
      decide
    rw [h87, Nat.add_zero]
    simp only [mcs_write_domain_mcspdu_header, per_write_integer16, stream_write_uint8,
      stream_write_uint16_be, stream_write_bytes_bytes, mcsHeaderBytes]
    norm_num [u8b]
  · rw [if_pos (show ((8 : Int) - (((length - 31) % 8 : Nat) : Int) ≠ 8) from by
      push_cast
      omega)]
    have ht : ((length : Int) + (8 - ((((length - 31) % 8 : Nat) : Int)))).toNat
        = length + ((8 - (length - 31) % 8) &&& 7) := by
      rw [and_7_eq_mod]
      omega
    rw [ht]
    simp only [mcs_write_domain_mcspdu_header, per_write_integer16, stream_write_uint8,
      stream_write_uint16_be, stream_write_bytes_bytes, mcsHeaderBytes]
    norm_num [u8b]

theorem byteAt_mcsHeaderBytes_two (rdp : rdpRdp) (v ch : Nat) :
    byteAt (mcsHeaderBytes rdp v ch) 2 = v / 256 % 256 := by
  simp [mcsHeaderBytes, u16be, u8b]

theorem byteAt_mcsHeaderBytes_three (rdp : rdpRdp) (v ch : Nat) :
    byteAt (mcsHeaderBytes rdp v ch) 3 = v % 256 := by
  simp [mcsHeaderBytes, u16be, u8b]

/-- The data buffer produced by the FIPS branch of
`rdp_security_stream_out` on a stream whose security header starts at
offset 15 (the layout every send path sets up): security header at
15, FIPS header (length 0x10, version 1, pad) at 19, signature at 23,
zero-padded and encrypted body from 31. -/
def fipsOutData (env : ExtOracle) (F : Nat) (d : List Nat) (P : Nat) : List Nat :=
  let len := P - 31
  let pad := (8 - len % 8) &&& 7
  let d1 := writeAt d 15 (u16le F)
  let d2 := writeAt d1 17 (u16le 0)
  let d3 := writeAt d2 19 (u16le 0x10)
  let d4 := writeAt d3 21 [1 % 256]
  let d5 := writeAt d4 (31 + len) (List.replicate pad 0)
  let d6 := writeAt d5 22 [pad % 256]
  let d7 := writeAt d6 23 (normN 8 (env.hmac_sig (regionOf d6 31 len)))
  writeAt d7 31 (normN (len + pad) (env.fips_encrypt (regionOf d7 31 (len + pad))))

theorem rdp_security_stream_out_fips (env : ExtOracle) (rdp : rdpRdp)
    (d : List Nat) (sz P : Nat)
    (hm : rdp.settings.encryption_method = ENCRYPTION_METHOD_FIPS)
    (hf : rdp.sec_flags &&& SEC_ENCRYPT ≠ 0) :
    rdp_security_stream_out env rdp (STREAM.mk d 15 sz) P
      = ((8 - (P - 31) % 8) &&& 7, { rdp with sec_flags := 0 },
          STREAM.mk (fipsOutData env rdp.sec_flags d P) 31 sz) := by
  have hnz : rdp.sec_flags ≠ 0 := by
    intro h0
    rw [h0] at hf
    simp at hf
  rw [rdp_security_stream_out, if_pos hnz, if_pos hf, if_pos hm]
  simp only [rdp_write_security_header, stream_write_uint16, stream_write_uint8,
    stream_write_bytes, spliceAt, u8b, normN_length, fipsOutData]
  norm_num

set_option maxHeartbeats 1000000 in
theorem rdp_send_fips_eq (env : ExtOracle) (rdp : rdpRdp) (d : List Nat) (P sz ch : Nat)
    (hm : rdp.settings.encryption_method = ENCRYPTION_METHOD_FIPS)
    (hf : rdp.sec_flags &&& SEC_ENCRYPT ≠ 0)
    (hpos : 31 ≤ P) :
    (rdp_send env rdp (STREAM.mk d P sz) ch).2.2
      = STREAM.mk
          (fipsOutData env rdp.sec_flags
            (writeAt d 0 (mcsHeaderBytes rdp (P + ((8 - (P - 31) % 8) &&& 7)) ch)) P)
          (P + ((8 - (P - 31) % 8) &&& 7)) sz := by
  have hsb : rdp_get_sec_bytes rdp = 16 := by
    rw [rdp_get_sec_bytes, if_pos hf, if_pos hm]
  have hwh : rdp_write_header rdp (STREAM.mk d 0 sz) P ch
      = STREAM.mk (writeAt d 0 (mcsHeaderBytes rdp (P + ((8 - (P - 31) % 8) &&& 7)) ch))
          15 sz := by
    rw [rdp_write_header_fips_eq rdp _ P ch hf hm hpos]
    simp only [stream_write_bytes, mcsHeaderBytes_length]
  rw [rdp_send]
  simp only [stream_get_length, stream_set_pos]
  rw [hwh]
  simp only [stream_seek, hsb]
  rw [rdp_security_stream_out_fips env rdp _ sz P hm hf]
  by_cases ht : env.transport_ok
  · rw [if_pos ht]
  · rw [if_neg ht]

theorem regionOf_writeAt_normN (xs : List Nat) (p n : Nat) (bs : List Nat) :
    regionOf (writeAt xs p (normN n bs)) p n = normN n bs := by
  have h := regionOf_writeAt_self xs p (normN n bs)
  rwa [normN_length] at h

theorem regionOf_writeAt_replicate (xs : List Nat) (p n : Nat) :
    regionOf (writeAt xs p (List.replicate n 0)) p n = List.replicate n 0 := by
  have h := regionOf_writeAt_self xs p (List.replicate n 0)
  rwa [List.length_replicate] at h

theorem byteAt_fipsOutData_lt (env : ExtOracle) (F : Nat) (d : List Nat) (P i : Nat)
    (h : i < 15) :
    byteAt (fipsOutData env F d P) i = byteAt d i := by
  simp only [fipsOutData]
  rw [byteAt_writeAt_lt, byteAt_writeAt_lt, byteAt_writeAt_lt, byteAt_writeAt_lt,
    byteAt_writeAt_lt, byteAt_writeAt_lt, byteAt_writeAt_lt, byteAt_writeAt_lt]
  all_goals omega

theorem byteAt_fipsOutData_22 (env : ExtOracle) (F : Nat) (d : List Nat) (P : Nat) :
    byteAt (fipsOutData env F d P) 22 = (8 - (P - 31) % 8) &&& 7 := by
  simp only [fipsOutData]
  rw [byteAt_writeAt_lt]
  case h => omega
  rw [byteAt_writeAt_lt]
  case h => omega
  rw [byteAt_writeAt_in]
  case hp => omega
  case h => simp
  norm_num
  all_goals rw [and_7_eq_mod]
  all_goals omega

theorem regionOf_fipsOutData (env : ExtOracle) (F : Nat) (d : List Nat) (P : Nat)
    (hpos : 31 ≤ P) (hcap : P ≤ d.length) :
    regionOf (fipsOutData env F d P) 31 ((P - 31) + ((8 - (P - 31) % 8) &&& 7))
      = normN ((P - 31) + ((8 - (P - 31) % 8) &&& 7))
          (env.fips_encrypt
            (regionOf d 31 (P - 31)
              ++ List.replicate ((8 - (P - 31) % 8) &&& 7) 0)) := by
  simp only [fipsOutData]
  rw [regionOf_writeAt_normN]
  congr 2
  rw [regionOf_writeAt_right]
  case h => simp
  rw [regionOf_writeAt_right]
  case h => simp
  rw [regionOf_add, regionOf_writeAt_replicate]
  rw [regionOf_writeAt_left]
  case hp =>
    simp [writeAt_length, u16le]
    omega
  case h => omega
  rw [regionOf_writeAt_right]
  case h => simp [u16le]
  rw [regionOf_writeAt_right]
  case h => simp [u16le]
  rw [regionOf_writeAt_right]
  case h => simp [u16le]
  rw [regionOf_writeAt_right]
  case h => simp [u16le]

/-- C5: on an outbound frame sent with SEC_ENCRYPT staged in FIPS
mode, the pad is at most 7, the padded body length is a multiple
of 8, the cursor advances by exactly the pad, the pad is recorded in
the FIPS header byte (offset 22), the encrypted region is the FIPS
encryption of the body zero-padded by exactly that pad, and the outer
TPKT length (offsets 2-3) equals the original length plus the same
pad. -/
theorem c5_fips_pad_properties (env : ExtOracle) (rdp : rdpRdp) (d : List Nat)
    (P sz ch : Nat)
    (hm : rdp.settings.encryption_method = ENCRYPTION_METHOD_FIPS)
    (hf : rdp.sec_flags &&& SEC_ENCRYPT ≠ 0)
    (hpos : 31 ≤ P)
    (hcap : P + 7 ≤ d.length)
    (hsz : P + 7 < 65536) :
    ((8 - (P - 31) % 8) &&& 7) ≤ 7
    ∧ ((P - 31) + ((8 - (P - 31) % 8) &&& 7)) % 8 = 0
    ∧ (rdp_send env rdp (STREAM.mk d P sz) ch).2.2.pos = P + ((8 - (P - 31) % 8) &&& 7)
    ∧ byteAt (rdp_send env rdp (STREAM.mk d P sz) ch).2.2.data 22
        = (8 - (P - 31) % 8) &&& 7
    ∧ regionOf (rdp_send env rdp (STREAM.mk d P sz) ch).2.2.data 31
          ((P - 31) + ((8 - (P - 31) % 8) &&& 7))
        = normN ((P - 31) + ((8 - (P - 31) % 8) &&& 7))
            (env.fips_encrypt
              (regionOf d 31 (P - 31)
                ++ List.replicate ((8 - (P - 31) % 8) &&& 7) 0))
    ∧ 256 * byteAt (rdp_send env rdp (STREAM.mk d P sz) ch).2.2.data 2
        + byteAt (rdp_send env rdp (STREAM.mk d P sz) ch).2.2.data 3
        = P + ((8 - (P - 31) % 8) &&& 7) := by
  have hmain := rdp_send_fips_eq env rdp d P sz ch hm hf hpos
  refine ⟨?_, ?_, ?_, ?_, ?_, ?_⟩
  · rw [and_7_eq_mod]
    omega
  · rw [and_7_eq_mod]
    omega
  · rw [hmain]
  · rw [hmain]
    exact byteAt_fipsOutData_22 env rdp.sec_flags _ P
  · rw [hmain]
    have hcap2 : P ≤ (writeAt d 0
        (mcsHeaderBytes rdp (P + ((8 - (P - 31) % 8) &&& 7)) ch)).length := by
      rw [writeAt_length]
      simp
      omega
    rw [show (STREAM.mk
          (fipsOutData env rdp.sec_flags
            (writeAt d 0 (mcsHeaderBytes rdp (P + ((8 - (P - 31) % 8) &&& 7)) ch)) P)
          (P + ((8 - (P - 31) % 8) &&& 7)) sz).data
        = fipsOutData env rdp.sec_flags
            (writeAt d 0 (mcsHeaderBytes rdp (P + ((8 - (P - 31) % 8) &&& 7)) ch)) P
      from rfl]
    rw [regionOf_fipsOutData env rdp.sec_flags _ P hpos hcap2]
    rw [regionOf_writeAt_right]
    case h => simp
  · rw [hmain]
    rw [show (STREAM.mk
          (fipsOutData env rdp.sec_flags
            (writeAt d 0 (mcsHeaderBytes rdp (P + ((8 - (P - 31) % 8) &&& 7)) ch)) P)
          (P + ((8 - (P - 31) % 8) &&& 7)) sz).data
        = fipsOutData env rdp.sec_flags
            (writeAt d 0 (mcsHeaderBytes rdp (P + ((8 - (P - 31) % 8) &&& 7)) ch)) P
      from rfl]
    rw [byteAt_fipsOutData_lt env rdp.sec_flags _ P 2 (by omega)]
    rw [byteAt_fipsOutData_lt env rdp.sec_flags _ P 3 (by omega)]
    rw [byteAt_writeAt_in]
    case hp => omega
    case h => simp
    rw [byteAt_writeAt_in]
    case hp => omega
    case h => simp
    norm_num [byteAt_mcsHeaderBytes_two, byteAt_mcsHeaderBytes_three]
    simp only [and_7_eq_mod]
    omega

def c5envW : ExtOracle :=
  ExtOracle.mk (fun _ => none) (fun _ _ => false) id id id (fun _ => [])
    (fun _ => []) (fun _ _ => []) (fun _ _ _ => none) (SDFields.mk 0 0 0 0 0)
    true true true

def c5rdpW : rdpRdp :=
  rdpRdp.mk (rdpSettings.mk false false 16 0 0 0) 8 false false false 1007 0 0

/-- Witness for C5: a 33-byte staged frame (2-byte body) sent FIPS
encrypted gets pad 6, multiple-of-8 padded body, pad byte 6 at offset
22 and TPKT length 39. -/
theorem c5_fips_pad_properties_witness :
    ((8 - ((33:Nat) - 31) % 8) &&& 7) ≤ 7
    ∧ (((33:Nat) - 31) + ((8 - ((33:Nat) - 31) % 8) &&& 7)) % 8 = 0
    ∧ (rdp_send c5envW c5rdpW (STREAM.mk (List.replicate 40 0) 33 40) 1003).2.2.pos
        = 33 + ((8 - ((33:Nat) - 31) % 8) &&& 7)
    ∧ byteAt (rdp_send c5envW c5rdpW
          (STREAM.mk (List.replicate 40 0) 33 40) 1003).2.2.data 22
        = (8 - ((33:Nat) - 31) % 8) &&& 7
    ∧ regionOf (rdp_send c5envW c5rdpW
          (STREAM.mk (List.replicate 40 0) 33 40) 1003).2.2.data 31
          (((33:Nat) - 31) + ((8 - ((33:Nat) - 31) % 8) &&& 7))
        = normN (((33:Nat) - 31) + ((8 - ((33:Nat) - 31) % 8) &&& 7))
            (c5envW.fips_encrypt
              (regionOf (List.replicate 40 0) 31 ((33:Nat) - 31)
                ++ List.replicate ((8 - ((33:Nat) - 31) % 8) &&& 7) 0))
    ∧ 256 * byteAt (rdp_send c5envW c5rdpW
          (STREAM.mk (List.replicate 40 0) 33 40) 1003).2.2.data 2
        + byteAt (rdp_send c5envW c5rdpW
            (STREAM.mk (List.replicate 40 0) 33 40) 1003).2.2.data 3
        = 33 + ((8 - ((33:Nat) - 31) % 8) &&& 7) :=
  c5_fips_pad_properties c5envW c5rdpW (List.replicate 40 0) 33 40 1003
    (by decide) (by decide) (by decide) (by decide) (by decide)

/-! ## C7: the multi-PDU Share Control loop -/

structure WirePdu where
  ty : Nat
  src : Nat
  body : List Nat

def encodeWirePdu (p : WirePdu) : List Nat :=
  u16le (6 + p.body.length) ++ u16le (p.ty ||| 0x10) ++ u16le p.src ++ p.body

def encodeWirePdus : List WirePdu → List Nat
  | [] => []
  | p :: ps => encodeWirePdu p ++ encodeWirePdus ps

def pduEventsFrom (pos : Nat) : List WirePdu → List PduEventR
  | [] => []
  | p :: ps =>
    PduEventR.mk p.ty p.src pos (pos + (6 + p.body.length))
      :: pduEventsFrom (pos + (6 + p.body.length)) ps

theorem read_share_control_encoded (p : WirePdu) (rest : List Nat) (s : STREAM)
    (hsfx : suffixAt s = encodeWirePdu p ++ rest)
    (hsz : s.size = s.pos + (encodeWirePdu p ++ rest).length)
    (hty : p.ty < 16) (hsrc : p.src < 65536) (hlen : 6 + p.body.length < 65536) :
    rdp_read_share_control_header s
      = (true, 6 + p.body.length, p.ty, p.src, stream_seek s 6) := by
  have hL : decodeU16le (suffixAt s) = 6 + p.body.length := by
    rw [hsfx]
    simp only [encodeWirePdu, List.append_assoc]
    exact decodeU16le_append _ _ hlen
  have hT : decodeU16le ((suffixAt s).drop 2) = p.ty ||| 16 := by
    rw [hsfx]
    simp only [encodeWirePdu, List.append_assoc, u16le]
    exact decodeU16le_append _ _ (by rw [lor_16_eq p.ty hty]; omega)
  have hS : decodeU16le ((suffixAt s).drop 4) = p.src := by
    rw [hsfx]
    simp only [encodeWirePdu, List.append_assoc, u16le]
    exact decodeU16le_append _ _ hsrc
  have hleft : stream_get_left s = ((encodeWirePdu p ++ rest).length : Int) := by
    rw [stream_get_left, hsz]
    push_cast
    omega
  have hlen2 : (encodeWirePdu p ++ rest).length = 6 + p.body.length + rest.length := by
    simp [encodeWirePdu, u16le]
    omega
  rw [rdp_read_share_control_header]
  simp only [stream_read_uint16, stream_get_left_seek, hL, hT, hS, suffixAt_seek,
    stream_seek_seek]
  rw [if_neg (by rw [hleft, hlen2]; push_cast; omega)]
  rw [if_pos (by omega)]
  have hmask : (p.ty ||| 16) &&& 15 = p.ty := by
    rw [lor_16_eq p.ty hty, and_15_eq_mod]
    omega
  rw [hmask]

theorem dataTypeDispatch_settings (rdp : rdpRdp) (ty : Nat) (cs : STREAM) :
    (dataTypeDispatch rdp ty cs).settings = rdp.settings := by
  rw [dataTypeDispatch]
  split <;> rfl

theorem rdp_recv_data_pdu_settings (env : ExtOracle) (rdp : rdpRdp) (s : STREAM) :
    (rdp_recv_data_pdu env rdp s).2.settings = rdp.settings := by
  rw [rdp_recv_data_pdu]
  split
  · split
    · exact dataTypeDispatch_settings _ _ _
    · rfl
  · exact dataTypeDispatch_settings _ _ _

theorem pduDispatch_settings (env : ExtOracle) (t : Nat) (rdp : rdpRdp) (s : STREAM) :
    (pduDispatch env t rdp s).2.settings = rdp.settings := by
  rw [pduDispatch]
  split
  · exact rdp_recv_data_pdu_settings env rdp s
  · split <;> rfl

theorem getLast_getD_cons (a : Nat) (l : List Nat) (x : Nat) :
    ((a :: l).getLast?).getD x = (l.getLast?).getD a := by
  cases l with
  | nil => rfl
  | cons b t =>
    rw [List.getLast?_cons_cons]
    cases h : (b :: t).getLast? with
    | none => simp at h
    | some v => rfl

theorem c7loop (env : ExtOracle) (pdus : List WirePdu) :
    ∀ (rdp : rdpRdp) (s : STREAM),
      suffixAt s = encodeWirePdus pdus →
      s.size = s.pos + (encodeWirePdus pdus).length →
      (∀ p ∈ pdus, p.ty < 16 ∧ p.src < 65536 ∧ 6 + p.body.length < 65536) →
      (rdp_recv_pdu_loop env rdp s pdus.length).1 = true →
      (rdp_recv_pdu_loop env rdp s pdus.length).2.2.2 = pduEventsFrom s.pos pdus
      ∧ (rdp_recv_pdu_loop env rdp s pdus.length).2.1.settings.pdu_source
          = ((pdus.map (fun q => q.src)).getLast?).getD rdp.settings.pdu_source := by
  induction pdus with
  | nil =>
    intro rdp s _ _ _ _
    exact ⟨rfl, rfl⟩
  | cons p ps ih =>
    intro rdp s hsfx hsz hwf hok
    obtain ⟨hty, hsrc, hlen⟩ := hwf p (List.mem_cons_self p ps)
    have hsfx1 : suffixAt s = encodeWirePdu p ++ encodeWirePdus ps := hsfx
    have hsz1 : s.size = s.pos + (encodeWirePdu p ++ encodeWirePdus ps).length := hsz
    have hread := read_share_control_encoded p (encodeWirePdus ps) s hsfx1 hsz1 hty hsrc hlen
    have hel : (encodeWirePdu p).length = 6 + p.body.length := by
      simp [encodeWirePdu, u16le]
      omega
    have hgt3 : stream_get_left s > 3 := by
      rw [stream_get_left, hsz1, List.length_append, hel]
      push_cast
      omega
    have hexp : rdp_recv_pdu_loop env rdp s (ps.length + 1)
        = (if (pduDispatch env p.ty
                ({ rdp with settings := { rdp.settings with pdu_source := p.src } })
                (stream_seek s 6)).1 = false
           then (false,
             (pduDispatch env p.ty
               ({ rdp with settings := { rdp.settings with pdu_source := p.src } })
               (stream_seek s 6)).2, stream_seek s 6,
             [PduEventR.mk p.ty p.src s.pos (s.pos + (6 + p.body.length))])
           else
             ((rdp_recv_pdu_loop env
                 (pduDispatch env p.ty
                   ({ rdp with settings := { rdp.settings with pdu_source := p.src } })
                   (stream_seek s 6)).2
                 (stream_set_pos (stream_seek s 6) (s.pos + (6 + p.body.length)))
                 ps.length).1,
              (rdp_recv_pdu_loop env
                 (pduDispatch env p.ty
                   ({ rdp with settings := { rdp.settings with pdu_source := p.src } })
                   (stream_seek s 6)).2
                 (stream_set_pos (stream_seek s 6) (s.pos + (6 + p.body.length)))
                 ps.length).2.1,
              (rdp_recv_pdu_loop env
                 (pduDispatch env p.ty
                   ({ rdp with settings := { rdp.settings with pdu_source := p.src } })
                   (stream_seek s 6)).2
                 (stream_set_pos (stream_seek s 6) (s.pos + (6 + p.body.length)))
                 ps.length).2.2.1,
              PduEventR.mk p.ty p.src s.pos (s.pos + (6 + p.body.length))
                :: (rdp_recv_pdu_loop env
                     (pduDispatch env p.ty
                       ({ rdp with settings := { rdp.settings with pdu_source := p.src } })
                       (stream_seek s 6)).2
                     (stream_set_pos (stream_seek s 6) (s.pos + (6 + p.body.length)))
                     ps.length).2.2.2)) := by
      rw [rdp_recv_pdu_loop, if_pos hgt3, hread]
    simp only [List.length_cons] at hok ⊢
    rw [hexp] at hok ⊢
    by_cases hd : (pduDispatch env p.ty
        ({ rdp with settings := { rdp.settings with pdu_source := p.src } })
        (stream_seek s 6)).1 = false
    · rw [if_pos hd] at hok
      simp at hok
    · rw [if_neg hd] at hok ⊢
      have hsfx2 : suffixAt (stream_set_pos (stream_seek s 6)
          (s.pos + (6 + p.body.length))) = encodeWirePdus ps := by
        show s.data.drop (s.pos + (6 + p.body.length)) = encodeWirePdus ps
        have h1 : s.data.drop (s.pos + (6 + p.body.length))
            = (suffixAt s).drop (6 + p.body.length) := by
          rw [suffixAt, List.drop_drop]
        rw [h1, hsfx1, List.drop_left' hel]
      have hsz2 : (stream_set_pos (stream_seek s 6)
            (s.pos + (6 + p.body.length))).size
          = (stream_set_pos (stream_seek s 6) (s.pos + (6 + p.body.length))).pos
            + (encodeWirePdus ps).length := by
        show s.size = s.pos + (6 + p.body.length) + (encodeWirePdus ps).length
        rw [hsz1, List.length_append, hel]
        omega
      have hwf2 : ∀ q ∈ ps, q.ty < 16 ∧ q.src < 65536 ∧ 6 + q.body.length < 65536 :=
        fun q hq => hwf q (List.mem_cons_of_mem p hq)
      have hok2 : (rdp_recv_pdu_loop env
          (pduDispatch env p.ty
            ({ rdp with settings := { rdp.settings with pdu_source := p.src } })
            (stream_seek s 6)).2
          (stream_set_pos (stream_seek s 6) (s.pos + (6 + p.body.length)))
          ps.length).1 = true := hok
      obtain ⟨he, hs⟩ := ih (pduDispatch env p.ty
          ({ rdp with settings := { rdp.settings with pdu_source := p.src } })
          (stream_seek s 6)).2
        (stream_set_pos (stream_seek s 6) (s.pos + (6 + p.body.length)))
        hsfx2 hsz2 hwf2 hok2
      constructor
      · rw [pduEventsFrom]
        exact congrArg
          (fun l => PduEventR.mk p.ty p.src s.pos (s.pos + (6 + p.body.length)) :: l) he
      · show (rdp_recv_pdu_loop env
            (pduDispatch env p.ty
              ({ rdp with settings := { rdp.settings with pdu_source := p.src } })
              (stream_seek s 6)).2
            (stream_set_pos (stream_seek s 6) (s.pos + (6 + p.body.length)))
            ps.length).2.1.settings.pdu_source = _
        rw [hs, pduDispatch_settings]
        rw [List.map_cons, getLast_getD_cons]

def eventsChainedB : Nat → List PduEventR → Bool
  | _, [] => true
  | pos, e :: es =>
    (e.start == pos && decide (e.start ≤ e.next)) && eventsChainedB e.next es

theorem eventsChainedB_pduEventsFrom (pdus : List WirePdu) :
    ∀ pos, eventsChainedB pos (pduEventsFrom pos pdus) = true := by
  induction pdus with
  | nil => intro pos; rfl
  | cons p ps ih =>
    intro pos
    rw [pduEventsFrom, eventsChainedB]
    simp only [beq_self_eq_true, Bool.true_and, Bool.and_eq_true, decide_eq_true_eq]
    exact ⟨Nat.le_add_right _ _, ih _⟩

/-- C7: a global-channel TPKT envelope holding a sequence of Share
Control PDUs is processed by iterating the Share Control loop: with
fuel equal to the PDU count, and provided processing succeeds, the
dispatched events list the PDUs in left-to-right arrival order, each
event restores the cursor to its start plus its declared length and
the cursor chain advances monotonically from the envelope start, and
the session settings record the pduSource of the most recent PDU. -/
theorem c7_multi_pdu_iteration (env : ExtOracle) (rdp rdp1 : rdpRdp) (s s1 : STREAM)
    (pdus : List WirePdu) (length : Nat)
    (hdr : rdp_read_header rdp s = some (length, MCS_GLOBAL_CHANNEL_ID, rdp1, s1))
    (hdisc : rdp1.disconnect = false)
    (henc : rdp1.settings.encryption = false)
    (hsfx : suffixAt s1 = encodeWirePdus pdus)
    (hsz : s1.size = s1.pos + (encodeWirePdus pdus).length)
    (hwf : ∀ p ∈ pdus, p.ty < 16 ∧ p.src < 65536 ∧ 6 + p.body.length < 65536)
    (hok : (rdp_recv_tpkt_pdu env rdp s pdus.length).1 = true) :
    (rdp_recv_tpkt_pdu env rdp s pdus.length).2.2.2 = pduEventsFrom s1.pos pdus
    ∧ eventsChainedB s1.pos (rdp_recv_tpkt_pdu env rdp s pdus.length).2.2.2 = true
    ∧ (rdp_recv_tpkt_pdu env rdp s pdus.length).2.1.settings.pdu_source
        = ((pdus.map (fun q => q.src)).getLast?).getD rdp1.settings.pdu_source := by
  have hexp : rdp_recv_tpkt_pdu env rdp s pdus.length
      = rdp_recv_pdu_loop env rdp1 s1 pdus.length := by
    rw [rdp_recv_tpkt_pdu, hdr]
    simp [hdisc, henc, rdp_recv_tpkt_global]
  rw [hexp] at hok ⊢
  obtain ⟨he, hs⟩ := c7loop env pdus rdp1 s1 hsfx hsz hwf hok
  refine ⟨he, ?_, hs⟩
  rw [he]
  exact eventsChainedB_pduEventsFrom pdus s1.pos

def c7envW : ExtOracle :=
  ExtOracle.mk (fun _ => none) (fun _ _ => false) id id id (fun _ => [])
    (fun _ => []) (fun _ _ => []) (fun _ _ _ => none) (SDFields.mk 0 0 0 0 0)
    true true true

def c7rdpR : rdpRdp :=
  rdpRdp.mk (rdpSettings.mk false false 0 0 0 0) 0 false false false 1002 0 0

def c7pdus : List WirePdu :=
  [WirePdu.mk 7 1007 (List.replicate 12 0), WirePdu.mk 6 1008 []]

def c7frame : List Nat :=
  [3, 0, 0, 39, 2, 240, 128, 104, 0, 6, 3, 235, 112, 128, 24] ++ encodeWirePdus c7pdus

/-- Witness for C7: a 39-byte TPKT envelope holding a DATA PDU from
source 1007 and a DEACTIVATE_ALL PDU from source 1008 dispatches both
in order, restores the cursor to 33 then 39, and leaves pdu_source
1008. -/
theorem c7_multi_pdu_iteration_witness :
    (rdp_recv_tpkt_pdu c7envW c7rdpR (STREAM.mk c7frame 0 39)
          c7pdus.length).2.2.2
        = pduEventsFrom 15 c7pdus
    ∧ eventsChainedB 15
        (rdp_recv_tpkt_pdu c7envW c7rdpR (STREAM.mk c7frame 0 39)
          c7pdus.length).2.2.2 = true
    ∧ (rdp_recv_tpkt_pdu c7envW c7rdpR (STREAM.mk c7frame 0 39)
          c7pdus.length).2.1.settings.pdu_source
        = ((c7pdus.map (fun q => q.src)).getLast?).getD
            c7rdpR.settings.pdu_source :=
  c7_multi_pdu_iteration c7envW c7rdpR c7rdpR (STREAM.mk c7frame 0 39)
    (STREAM.mk c7frame 15 39) c7pdus 24 (by decide) rfl rfl (by decide) (by decide)
    (by decide) (by decide)
